import Mathlib

/-!
Shallow embedding of the synthetic stellar data generator
(`generator/config.go`, `models/entities.go`).

Numeric model: Go `float64` values are modelled as exact rationals (`ℚ`),
and `math.Sqrt` is modelled as an abstract function `sq : ℚ → ℚ` about which
theorems assume only a property of the real square root (`SqrtSpec`).
Go `int`, `int32` and `int64` are modelled as `ℤ`.

The seeded PRNG `rand.New(rand.NewSource(cfg.Seed))` is modelled as an
abstract stream of uniform draws in `[0,1)`: a `Rand` value is the stream
together with the current position.  Each primitive draw (`Float64`, `Intn`,
`Int31n`) consumes one element of the stream.  The stream is a function of
the seed alone, so two calls of `GenerateAll` with the same configuration
(hence the same seed) receive the same `Rand` value.

`uuid.New()` draws from a process-global randomness source that is
independent of the seeded stream; it is modelled as a separate abstract
stream of strings (`Uuid`), threaded through generation.  Two calls of
`GenerateAll` observe different positions of that global source, i.e.
different `Uuid` values.
-/

namespace StellarGen

/-- Star record (`models/entities.go`). -/
structure Star where
  ID : String
  Name : String
  SpectralType : String
  Mass : ℚ
  Radius : ℚ
  Temperature : ℤ
deriving DecidableEq

/-- Planet record (`models/entities.go`). -/
structure Planet where
  ID : String
  Name : String
  OrbitalPeriod : ℚ
  SemiMajorAxis : ℚ
  Eccentricity : ℚ
  Mass : ℚ
  Radius : ℚ
  Atmosphere : String
  SurfaceTemp : ℤ
  HasRings : Bool
  HasMoons : Bool
  DiscoveryYear : ℤ
  StarID : String
deriving DecidableEq

/-- Exoplanet record (`models/entities.go`). -/
structure Exoplanet where
  ID : String
  Name : String
  OrbitalPeriod : ℚ
  SemiMajorAxis : ℚ
  Eccentricity : ℚ
  Mass : ℚ
  Radius : ℚ
  DetectionMethod : String
  HostDistance : ℚ
  SurfaceTemp : ℤ
  DiscoveryYear : ℤ
  StarID : String
deriving DecidableEq

/-- Generation configuration (`generator.Config`). -/
structure Config where
  NumStars : ℤ
  PlanetsPerStar : ℤ
  ExoPerStar : ℤ
  Seed : ℤ
deriving DecidableEq

/-- Result set (`generator.GeneratedData`). -/
structure GeneratedData where
  Stars : List Star
  Planets : List Planet
  Exoplanets : List Exoplanet
deriving DecidableEq

/-- The seeded PRNG `*rand.Rand`: an abstract stream of uniform `[0,1)`
draws together with the current position. -/
structure Rand where
  stream : ℕ → ℚ
  idx : ℕ

/-- One `r.Float64()` draw: the next element of the stream (a value in
`[0,1)` for a well-formed stream). -/
def Float64 (r : Rand) : ℚ × Rand :=
  (r.stream r.idx, ⟨r.stream, r.idx + 1⟩)

/-- Go `r.Intn(n)` / `r.Int31n(n)`: panics (modelled as `none`) unless
`0 < n`, otherwise a uniform integer in `[0, n)`, modelled as `⌊u * n⌋` for
the next uniform draw `u`. -/
def Intn (n : ℤ) (r : Rand) : Option (ℤ × Rand) :=
  if n ≤ 0 then none
  else some (⌊r.stream r.idx * (n : ℚ)⌋, ⟨r.stream, r.idx + 1⟩)

/-- The process-global `uuid.New()` source, independent of the seeded
stream: an abstract stream of identifier strings with a position. -/
structure Uuid where
  stream : ℕ → String
  idx : ℕ

/-- One `uuid.New().String()` call. -/
def uuidNew (u : Uuid) : String × Uuid :=
  (u.stream u.idx, ⟨u.stream, u.idx + 1⟩)

/-- `randFloat(r, min, max) = min + r.Float64()*(max-min)`. -/
def randFloat (r : Rand) (lo hi : ℚ) : ℚ × Rand :=
  let p := Float64 r
  (lo + p.1 * (hi - lo), p.2)

/-- `randInt(r, min, max) = min + r.Int31n(max-min+1)`. -/
def randInt (r : Rand) (lo hi : ℤ) : Option (ℤ × Rand) := do
  let p ← Intn (hi - lo + 1) r
  pure (lo + p.1, p.2)

/-- One row of the `spectralTypes` table. -/
structure SpectralClass where
  cls : String
  massRange : ℚ × ℚ
  radiusRange : ℚ × ℚ
  tempRange : ℤ × ℤ
deriving DecidableEq

/-- The `spectralTypes` table from `generator/config.go`. -/
def spectralTypes : List SpectralClass :=
  [⟨"O", (16.0, 90.0), (6.6, 15.0), (30000, 50000)⟩,
   ⟨"B", (2.1, 16.0), (1.8, 6.6), (10000, 30000)⟩,
   ⟨"A", (1.4, 2.1), (1.4, 1.8), (7500, 10000)⟩,
   ⟨"F", (1.04, 1.4), (1.15, 1.4), (6000, 7500)⟩,
   ⟨"G", (0.8, 1.04), (0.96, 1.15), (5200, 6000)⟩,
   ⟨"K", (0.45, 0.8), (0.7, 0.96), (3700, 5200)⟩,
   ⟨"M", (0.08, 0.45), (0.1, 0.7), (2400, 3700)⟩]

/-- The `atmosphereTypes` table. -/
def atmosphereTypes : List String :=
  ["H2/He dominant", "N2/O2 dominant", "CO2 dominant", "Thin atmosphere",
   "No atmosphere", "H2/He with methane", "Sulfuric compounds", "Water vapor rich"]

/-- The `detectionMethods` table. -/
def detectionMethods : List String :=
  ["Transit", "Radial Velocity", "Direct Imaging", "Gravitational Microlensing",
   "Astrometry", "Transit Timing Variation"]

/-- The spectral-frequency weights of `generateSpectralType`. -/
def weights : List ℚ := [0.00003, 0.13, 2.0, 3.0, 7.6, 12.1, 76.45]

/-- `total`, the running sum of all weights. -/
def totalWeight : ℚ := weights.foldl (· + ·) 0

/-- The cumulative-scan loop of `generateSpectralType`: starting from the
running sum `c` at list position `i`, return the first index whose
cumulative weight is `≥ val` (the `break`), and `0` (the untouched initial
`classIdx`) if the loop runs out. -/
def scanAux (val : ℚ) : ℚ → ℕ → List ℚ → ℕ
  | _, _, [] => 0
  | c, i, w :: ws => if val ≤ c + w then i else scanAux val (c + w) (i + 1) ws

/-- The class index chosen by `generateSpectralType` for drawn value `val`. -/
def scanWeights (val : ℚ) : ℕ := scanAux val 0 0 weights

/-- Cumulative weight of classes `0..i` (for stating the scan's spec). -/
def cumWeight (i : ℕ) : ℚ := (weights.take (i + 1)).foldl (· + ·) 0

/-- `spectralTypes[i]`; the default is never reached (indices stay below 7),
mirroring Go where `classIdx` is always in range. -/
def classAt (i : ℕ) : SpectralClass :=
  spectralTypes.getD i ⟨"O", (16.0, 90.0), (6.6, 15.0), (30000, 50000)⟩

/-- `generateSpectralType`: weighted class draw, then a subclass digit in
`[0,9]`, then the fixed luminosity class `"V"`. -/
def generateSpectralType (r : Rand) : Option (String × Rand) := do
  let p := Float64 r
  let val := p.1 * totalWeight
  let classIdx := scanWeights val
  let q ← Intn 10 p.2
  pure ((classAt classIdx).cls ++ toString q.1 ++ "V", q.2)

/-- The class-lookup loop of `generateStar`: first table row whose class
letter equals `c`; `classIdx` stays `0` if none matches. -/
def findClassIdxAux (c : Char) : ℕ → List SpectralClass → ℕ
  | _, [] => 0
  | i, st :: rest => if st.cls.front = c then i else findClassIdxAux c (i + 1) rest

/-- `generateStar(r, index)`. -/
def generateStar (r : Rand) (u : Uuid) (index : ℕ) : Option (Star × Rand × Uuid) := do
  let (spectralType, r1) ← generateSpectralType r
  let classChar := spectralType.front
  let st := classAt (findClassIdxAux classChar 0 spectralTypes)
  let (sid, u1) := uuidNew u
  let (mass, r2) := randFloat r1 st.massRange.1 st.massRange.2
  let (radius, r3) := randFloat r2 st.radiusRange.1 st.radiusRange.2
  let (temp, r4) ← randInt r3 st.tempRange.1 st.tempRange.2
  pure (⟨sid, "Star-" ++ toString index, spectralType, mass, radius, temp⟩, r4, u1)

/-- Go conversion `int32(x)` on a float in int32 range: truncation toward
zero. -/
def goInt32 (q : ℚ) : ℤ := if q < 0 then -⌊-q⌋ else ⌊q⌋

/-- `generatePlanet(r, star, index)`.  `sq` is the model of `math.Sqrt`. -/
def generatePlanet (sq : ℚ → ℚ) (star : Star) (index : ℕ) (r : Rand) (u : Uuid) :
    Option (Planet × Rand × Uuid) := do
  let (semiMajorAxis, r1) := randFloat r 0.05 50.0
  let orbitalPeriod := 365.25 * sq (semiMajorAxis * semiMajorAxis * semiMajorAxis / star.Mass)
  let (planetType, r2) := Float64 r1
  let (mass, radius, r3) :=
    if planetType < 0.3 then
      let pm := randFloat r2 0.1 5.0
      let pr := randFloat pm.2 0.3 2.0
      (pm.1, pr.1, pr.2)
    else if planetType < 0.6 then
      let pm := randFloat r2 5.0 20.0
      let pr := randFloat pm.2 2.0 4.0
      (pm.1, pr.1, pr.2)
    else
      let pm := randFloat r2 20.0 1000.0
      let pr := randFloat pm.2 4.0 15.0
      (pm.1, pr.1, pr.2)
  let surfaceTemp := goInt32 ((star.Temperature : ℚ) * sq (star.Radius / (2.0 * semiMajorAxis)))
  let (pid, u1) := uuidNew u
  let (ecc, r4) := randFloat r3 0.0 0.3
  let (atmoIdx, r5) ← Intn (atmosphereTypes.length : ℤ) r4
  let (ringsF, r6) := Float64 r5
  let (moonsF, r7) := Float64 r6
  let (year, r8) ← randInt r7 1990 2024
  pure (⟨pid, star.Name ++ "-Planet-" ++ toString index, orbitalPeriod, semiMajorAxis, ecc,
    mass, radius, atmosphereTypes.getD atmoIdx.toNat "", surfaceTemp,
    decide (ringsF < 0.2), decide (moonsF < 0.6), year, star.ID⟩, r8, u1)

/-- `generateExoplanet(r, star, index)`. -/
def generateExoplanet (sq : ℚ → ℚ) (star : Star) (index : ℕ) (r : Rand) (u : Uuid) :
    Option (Exoplanet × Rand × Uuid) := do
  let (semiMajorAxis, r1) := randFloat r 0.01 5.0
  let orbitalPeriod := 365.25 * sq (semiMajorAxis * semiMajorAxis * semiMajorAxis / star.Mass)
  let (mass, r2) := randFloat r1 0.5 500.0
  let (radius, r3) := randFloat r2 0.5 12.0
  let surfaceTemp := goInt32 ((star.Temperature : ℚ) * sq (star.Radius / (2.0 * semiMajorAxis)))
  let (hostDistance, r4) := randFloat r3 10.0 10000.0
  let (eid, u1) := uuidNew u
  let (ecc, r5) := randFloat r4 0.0 0.5
  let (detIdx, r6) ← Intn (detectionMethods.length : ℤ) r5
  let (year, r7) ← randInt r6 1990 2024
  pure (⟨eid, star.Name ++ "-Exo-" ++ toString index, orbitalPeriod, semiMajorAxis, ecc,
    mass, radius, detectionMethods.getD detIdx.toNat "", hostDistance, surfaceTemp,
    year, star.ID⟩, r7, u1)

/-- The inner planet loop of `GenerateAll`: `numPlanets` iterations with
ordinals `j, j+1, ...`, appending each planet to the accumulated data. -/
def planetLoop (sq : ℚ → ℚ) (star : Star) :
    ℕ → ℕ → Rand → Uuid → GeneratedData → Option (GeneratedData × Rand × Uuid)
  | 0, _, r, u, acc => some (acc, r, u)
  | n + 1, j, r, u, acc => do
    let (p, r1, u1) ← generatePlanet sq star j r u
    planetLoop sq star n (j + 1) r1 u1 ⟨acc.Stars, acc.Planets ++ [p], acc.Exoplanets⟩

/-- The inner exoplanet loop of `GenerateAll`. -/
def exoLoop (sq : ℚ → ℚ) (star : Star) :
    ℕ → ℕ → Rand → Uuid → GeneratedData → Option (GeneratedData × Rand × Uuid)
  | 0, _, r, u, acc => some (acc, r, u)
  | n + 1, j, r, u, acc => do
    let (e, r1, u1) ← generateExoplanet sq star j r u
    exoLoop sq star n (j + 1) r1 u1 ⟨acc.Stars, acc.Planets, acc.Exoplanets ++ [e]⟩

/-- The per-star loop of `GenerateAll`: generate star `i+1`, a drawn number
of planets in `[0, PlanetsPerStar]`, then a drawn number of exoplanets in
`[0, ExoPerStar]`, then recurse. -/
def starLoop (sq : ℚ → ℚ) (cfg : Config) :
    ℕ → ℕ → Rand → Uuid → GeneratedData → Option (GeneratedData × Rand × Uuid)
  | 0, _, r, u, acc => some (acc, r, u)
  | n + 1, i, r, u, acc => do
    let (star, r1, u1) ← generateStar r u (i + 1)
    let acc1 : GeneratedData := ⟨acc.Stars ++ [star], acc.Planets, acc.Exoplanets⟩
    let (numPlanets, r2) ← Intn (cfg.PlanetsPerStar + 1) r1
    let (acc2, r3, u2) ← planetLoop sq star numPlanets.toNat 1 r2 u1 acc1
    let (numExo, r4) ← Intn (cfg.ExoPerStar + 1) r3
    let (acc3, r5, u3) ← exoLoop sq star numExo.toNat 1 r4 u2 acc2
    starLoop sq cfg n (i + 1) r5 u3 acc3

/-- `GenerateAll(cfg)`.  The slice pre-allocation
`make([]models.Star, 0, cfg.NumStars)` panics at run time when the capacity
`cfg.NumStars` is negative, modelled as `none`; otherwise the per-star loop
runs `cfg.NumStars` times on an initially empty result set. -/
def GenerateAll (sq : ℚ → ℚ) (cfg : Config) (r : Rand) (u : Uuid) : Option GeneratedData :=
  if cfg.NumStars < 0 then none
  else Option.map (fun x => x.1) (starLoop sq cfg cfg.NumStars.toNat 0 r u ⟨[], [], []⟩)

/-- A well-formed underlying stream: every draw lies in `[0,1)`, which is
the contract of Go's `Float64` (and of the uniform draws behind `Intn`). -/
def Stream01 (s : ℕ → ℚ) : Prop := ∀ n, 0 ≤ s n ∧ s n < 1

/-- The properties of `math.Sqrt` the development relies on: any
nonnegative `y` with `y * y ≤ x` is a lower bound of `sq x` (true of the
real square root, and of correctly rounded floating-point square root on
the ranges involved). -/
def SqrtSpec (sq : ℚ → ℚ) : Prop := ∀ x y : ℚ, 0 ≤ y → y * y ≤ x → y ≤ sq x

/-- The spectral-type string produced from stream positions `idx`, `idx+1`. -/
def spectralString (r : Rand) : String :=
  (classAt (scanWeights (r.stream r.idx * totalWeight))).cls
    ++ toString ⌊r.stream (r.idx + 1) * (10 : ℚ)⌋ ++ "V"

/-- The spectral-class row `generateStar` ends up using. -/
def starClass (r : Rand) : SpectralClass :=
  classAt (findClassIdxAux (spectralString r).front 0 spectralTypes)

/-- The star mass drawn at stream position `idx+2`. -/
def starMass (r : Rand) : ℚ :=
  (starClass r).massRange.1 + r.stream (r.idx + 2) * ((starClass r).massRange.2 - (starClass r).massRange.1)

/-- The star radius drawn at stream position `idx+3`. -/
def starRadius (r : Rand) : ℚ :=
  (starClass r).radiusRange.1 + r.stream (r.idx + 3) * ((starClass r).radiusRange.2 - (starClass r).radiusRange.1)

/-- The star temperature drawn at stream position `idx+4`. -/
def starTemp (r : Rand) : ℤ :=
  (starClass r).tempRange.1 + ⌊r.stream (r.idx + 4) * (((starClass r).tempRange.2 - (starClass r).tempRange.1 + 1 : ℤ) : ℚ)⌋

/-- The planet semi-major axis drawn at stream position `idx`. -/
def planetAxis (r : Rand) : ℚ := 0.05 + r.stream r.idx * (50.0 - 0.05)

/-- The (mass, radius) pair determined by the regime draw at `idx+1` and the
band draws at `idx+2`, `idx+3`. -/
def planetBands (r : Rand) : ℚ × ℚ :=
  if r.stream (r.idx + 1) < 0.3 then
    (0.1 + r.stream (r.idx + 2) * (5.0 - 0.1), 0.3 + r.stream (r.idx + 3) * (2.0 - 0.3))
  else if r.stream (r.idx + 1) < 0.6 then
    (5.0 + r.stream (r.idx + 2) * (20.0 - 5.0), 2.0 + r.stream (r.idx + 3) * (4.0 - 2.0))
  else
    (20.0 + r.stream (r.idx + 2) * (1000.0 - 20.0), 4.0 + r.stream (r.idx + 3) * (15.0 - 4.0))

/-- The planet mass. -/
def planetMass (r : Rand) : ℚ := (planetBands r).1

/-- The planet radius. -/
def planetRadius (r : Rand) : ℚ := (planetBands r).2

/-- The planet eccentricity drawn at stream position `idx+4`. -/
def planetEcc (r : Rand) : ℚ := 0.0 + r.stream (r.idx + 4) * (0.3 - 0.0)

/-- The exoplanet semi-major axis drawn at stream position `idx`. -/
def exoAxis (r : Rand) : ℚ := 0.01 + r.stream r.idx * (5.0 - 0.01)

/-- The exoplanet mass drawn at stream position `idx+1`. -/
def exoMass (r : Rand) : ℚ := 0.5 + r.stream (r.idx + 1) * (500.0 - 0.5)

/-- The exoplanet radius drawn at stream position `idx+2`. -/
def exoRadius (r : Rand) : ℚ := 0.5 + r.stream (r.idx + 2) * (12.0 - 0.5)

/-- The exoplanet host distance drawn at stream position `idx+3`. -/
def exoHost (r : Rand) : ℚ := 10.0 + r.stream (r.idx + 3) * (10000.0 - 10.0)

/-- The exoplanet eccentricity drawn at stream position `idx+4`. -/
def exoEcc (r : Rand) : ℚ := 0.0 + r.stream (r.idx + 4) * (0.5 - 0.0)

/-- Invariants of every generated star: positive mass, radius at least the
table-wide minimum `0.1`, temperature at least the table-wide minimum
`2400` K. -/
def GoodStar (st : Star) : Prop :=
  0 < st.Mass ∧ 1/10 ≤ st.Radius ∧ 2400 ≤ st.Temperature

/-- Invariants tying a generated planet to its parent star `st`. -/
def PlanetInv (sq : ℚ → ℚ) (st : Star) (p : Planet) : Prop :=
  p.StarID = st.ID ∧
  1/20 ≤ p.SemiMajorAxis ∧ p.SemiMajorAxis < 50 ∧
  p.OrbitalPeriod = 365.25 * sq (p.SemiMajorAxis * p.SemiMajorAxis * p.SemiMajorAxis / st.Mass) ∧
  0 < p.OrbitalPeriod ∧
  0 ≤ p.Eccentricity ∧ p.Eccentricity < 3/10 ∧
  0 < p.Mass ∧ 0 < p.Radius ∧
  p.SurfaceTemp = ⌊(st.Temperature : ℚ) * sq (st.Radius / (2 * p.SemiMajorAxis))⌋ ∧
  0 < p.SurfaceTemp ∧
  1990 ≤ p.DiscoveryYear ∧ p.DiscoveryYear ≤ 2024

/-- Invariants tying a generated exoplanet to its parent star `st`. -/
def ExoInv (sq : ℚ → ℚ) (st : Star) (e : Exoplanet) : Prop :=
  e.StarID = st.ID ∧
  1/100 ≤ e.SemiMajorAxis ∧ e.SemiMajorAxis < 5 ∧
  e.OrbitalPeriod = 365.25 * sq (e.SemiMajorAxis * e.SemiMajorAxis * e.SemiMajorAxis / st.Mass) ∧
  0 < e.OrbitalPeriod ∧
  0 ≤ e.Eccentricity ∧ e.Eccentricity < 1/2 ∧
  1/2 ≤ e.Mass ∧ e.Mass < 500 ∧ 1/2 ≤ e.Radius ∧ e.Radius < 12 ∧
  10 ≤ e.HostDistance ∧
  e.SurfaceTemp = ⌊(st.Temperature : ℚ) * sq (st.Radius / (2 * e.SemiMajorAxis))⌋ ∧
  0 < e.SurfaceTemp ∧
  1990 ≤ e.DiscoveryYear ∧ e.DiscoveryYear ≤ 2024

/-- A star with its identifier blanked. -/
def eraseStar (st : Star) : Star :=
  ⟨"", st.Name, st.SpectralType, st.Mass, st.Radius, st.Temperature⟩

/-- A planet with its identifier and star reference blanked. -/
def erasePlanet (p : Planet) : Planet :=
  ⟨"", p.Name, p.OrbitalPeriod, p.SemiMajorAxis, p.Eccentricity, p.Mass, p.Radius,
   p.Atmosphere, p.SurfaceTemp, p.HasRings, p.HasMoons, p.DiscoveryYear, ""⟩

/-- An exoplanet with its identifier and star reference blanked. -/
def eraseExo (e : Exoplanet) : Exoplanet :=
  ⟨"", e.Name, e.OrbitalPeriod, e.SemiMajorAxis, e.Eccentricity, e.Mass, e.Radius,
   e.DetectionMethod, e.HostDistance, e.SurfaceTemp, e.DiscoveryYear, ""⟩

/-- A result set with every UUID-derived field blanked. -/
def eraseData (d : GeneratedData) : GeneratedData :=
  ⟨d.Stars.map eraseStar, d.Planets.map erasePlanet, d.Exoplanets.map eraseExo⟩

/-- A concrete model of `math.Sqrt` satisfying `SqrtSpec`, used to
instantiate witnesses and counterexamples. -/
def sqrtModel (x : ℚ) : ℚ := x + 1

/-- The all-zero draw stream (a legal `[0,1)` stream). -/
def zeroRand : Rand := ⟨fun _ => 0, 0⟩

/-- A concrete UUID source. -/
def uuidA : Uuid := ⟨fun _ => "uuid-a", 0⟩

/-- Another concrete UUID source, differing from `uuidA`. -/
def uuidB : Uuid := ⟨fun _ => "uuid-b", 0⟩

/-- A draw stream whose planet-regime draw (second planet draw) is exactly
`0.3` and whose mass draw is `0.5`. -/
def regimeRand : Rand := ⟨fun n => if n = 1 then 0.3 else if n = 2 then 0.5 else 0, 0⟩

/-- A concrete parent star for exercising `generatePlanet` directly. -/
def probeStar : Star := ⟨"sid-1", "Star-1", "G2V", 1, 1, 5778⟩

theorem Intn_pos (n : ℤ) (r : Rand) (h : 0 < n) :
    Intn n r = some (⌊r.stream r.idx * (n : ℚ)⌋, ⟨r.stream, r.idx + 1⟩) := by
  simp [Intn]
  omega

theorem generateSpectralType_eq (r : Rand) :
    generateSpectralType r = some (spectralString r, ⟨r.stream, r.idx + 2⟩) := by
  simp [generateSpectralType, Float64, Intn_pos _ _ (by norm_num : (0:ℤ) < 10),
    spectralString]

theorem spectral_temp_spans : ∀ c ∈ spectralTypes, c.tempRange.1 ≤ c.tempRange.2 := by
  intro c hc
  fin_cases hc <;> norm_num

theorem classAt_mem (i : ℕ) : classAt i ∈ spectralTypes := by
  rw [classAt]
  rcases lt_or_ge i spectralTypes.length with h | h
  · rw [List.getD_eq_getElem _ _ h]
    exact List.getElem_mem h
  · rw [List.getD_eq_default _ _ h]
    norm_num [spectralTypes]

theorem generateStar_eq (r : Rand) (u : Uuid) (i : ℕ) :
    generateStar r u i = some (⟨u.stream u.idx, "Star-" ++ toString i, spectralString r,
      starMass r, starRadius r, starTemp r⟩, ⟨r.stream, r.idx + 5⟩, ⟨u.stream, u.idx + 1⟩) := by
  have hspan : (starClass r).tempRange.1 ≤ (starClass r).tempRange.2 :=
    spectral_temp_spans _ (classAt_mem _)
  rw [starClass] at hspan
  simp only [generateStar, generateSpectralType_eq, Option.bind_eq_bind, Option.some_bind,
    randFloat, Float64, uuidNew, randInt]
  rw [Intn_pos _ _ (by omega)]
  simp [starMass, starRadius, starTemp, starClass, Nat.add_assoc]

theorem generatePlanet_eq (sq : ℚ → ℚ) (star : Star) (j : ℕ) (r : Rand) (u : Uuid) :
    generatePlanet sq star j r u = some (⟨u.stream u.idx,
      star.Name ++ "-Planet-" ++ toString j,
      365.25 * sq (planetAxis r * planetAxis r * planetAxis r / star.Mass),
      planetAxis r, planetEcc r, planetMass r, planetRadius r,
      atmosphereTypes.getD ⌊r.stream (r.idx + 5) * (8 : ℚ)⌋.toNat "",
      goInt32 ((star.Temperature : ℚ) * sq (star.Radius / (2.0 * planetAxis r))),
      decide (r.stream (r.idx + 6) < 0.2), decide (r.stream (r.idx + 7) < 0.6),
      1990 + ⌊r.stream (r.idx + 8) * (35 : ℚ)⌋, star.ID⟩,
      ⟨r.stream, r.idx + 9⟩, ⟨u.stream, u.idx + 1⟩) := by
  simp only [generatePlanet, randFloat, Float64, uuidNew, randInt, Option.bind_eq_bind,
    Option.some_bind]
  by_cases h1 : r.stream (r.idx + 1) < 0.3
  · simp [h1, Intn, planetAxis, planetEcc, planetMass, planetRadius, planetBands,
      atmosphereTypes, Nat.add_assoc]
  · by_cases h2 : r.stream (r.idx + 1) < 0.6
    · simp [h1, h2, Intn, planetAxis, planetEcc, planetMass, planetRadius, planetBands,
        atmosphereTypes, Nat.add_assoc]
    · simp [h1, h2, Intn, planetAxis, planetEcc, planetMass, planetRadius, planetBands,
        atmosphereTypes, Nat.add_assoc]

theorem generateExoplanet_eq (sq : ℚ → ℚ) (star : Star) (j : ℕ) (r : Rand) (u : Uuid) :
    generateExoplanet sq star j r u = some (⟨u.stream u.idx,
      star.Name ++ "-Exo-" ++ toString j,
      365.25 * sq (exoAxis r * exoAxis r * exoAxis r / star.Mass),
      exoAxis r, exoEcc r, exoMass r, exoRadius r,
      detectionMethods.getD ⌊r.stream (r.idx + 5) * (6 : ℚ)⌋.toNat "",
      exoHost r,
      goInt32 ((star.Temperature : ℚ) * sq (star.Radius / (2.0 * exoAxis r))),
      1990 + ⌊r.stream (r.idx + 6) * (35 : ℚ)⌋, star.ID⟩,
      ⟨r.stream, r.idx + 7⟩, ⟨u.stream, u.idx + 1⟩) := by
  simp [generateExoplanet, randFloat, Float64, uuidNew, randInt, Intn,
    exoAxis, exoEcc, exoMass, exoRadius, exoHost, detectionMethods, Nat.add_assoc]

theorem SqrtSpec.nonneg (sq : ℚ → ℚ) (hsq : SqrtSpec sq) (x : ℚ) (hx : 0 ≤ x) : 0 ≤ sq x :=
  hsq x 0 le_rfl (by nlinarith)

theorem SqrtSpec.pos (sq : ℚ → ℚ) (hsq : SqrtSpec sq) (x : ℚ) (hx : 0 < x) : 0 < sq x := by
  rcases le_or_lt x 1 with h | h
  · have := hsq x x hx.le (by nlinarith)
    linarith
  · have := hsq x 1 (by norm_num) (by nlinarith)
    linarith

theorem randval_lb (f lo hi : ℚ) (hf : 0 ≤ f) (h : lo ≤ hi) : lo ≤ lo + f * (hi - lo) := by
  nlinarith

theorem randval_ub (f lo hi : ℚ) (hf : f < 1) (h : lo < hi) : lo + f * (hi - lo) < hi := by
  nlinarith

theorem spectral_facts : ∀ c ∈ spectralTypes,
    0 < c.massRange.1 ∧ c.massRange.1 < c.massRange.2 ∧
    1/10 ≤ c.radiusRange.1 ∧ c.radiusRange.1 < c.radiusRange.2 ∧
    2400 ≤ c.tempRange.1 := by
  intro c hc
  fin_cases hc <;> norm_num

theorem starMass_pos (r : Rand) (hs : Stream01 r.stream) : 0 < starMass r := by
  obtain ⟨h1, h2, -, -, -⟩ := spectral_facts _ (classAt_mem (findClassIdxAux (spectralString r).front 0 spectralTypes))
  have hf := hs (r.idx + 2)
  rw [starMass]
  rw [starClass] at *
  nlinarith [h1, h2, hf.1]

theorem starRadius_ge (r : Rand) (hs : Stream01 r.stream) : 1/10 ≤ starRadius r := by
  obtain ⟨-, -, h3, h4, -⟩ := spectral_facts _ (classAt_mem (findClassIdxAux (spectralString r).front 0 spectralTypes))
  have hf := hs (r.idx + 3)
  rw [starRadius]
  rw [starClass] at *
  nlinarith [h3, h4, hf.1]

theorem starTemp_ge (r : Rand) (hs : Stream01 r.stream) : 2400 ≤ starTemp r := by
  have hmem := classAt_mem (findClassIdxAux (spectralString r).front 0 spectralTypes)
  obtain ⟨-, -, -, -, h5⟩ := spectral_facts _ hmem
  have hspan := spectral_temp_spans _ hmem
  have hf := hs (r.idx + 4)
  rw [starTemp]
  rw [starClass] at *
  have hfl : (0:ℤ) ≤ ⌊r.stream (r.idx + 4) * (((classAt (findClassIdxAux (spectralString r).front 0 spectralTypes)).tempRange.2 - (classAt (findClassIdxAux (spectralString r).front 0 spectralTypes)).tempRange.1 + 1 : ℤ) : ℚ)⌋ := by
    apply Int.le_floor.mpr
    push_cast
    have : ((classAt (findClassIdxAux (spectralString r).front 0 spectralTypes)).tempRange.1 : ℚ) ≤ ((classAt (findClassIdxAux (spectralString r).front 0 spectralTypes)).tempRange.2 : ℚ) := by
      exact_mod_cast hspan
    nlinarith [hf.1]
  omega



theorem goInt32_nonneg_eq (q : ℚ) (h : 0 ≤ q) : goInt32 q = ⌊q⌋ := by
  rw [goInt32, if_neg (not_lt.mpr h)]

theorem surfaceTemp_pos (sq : ℚ → ℚ) (hsq : SqrtSpec sq) (st : Star) (hst : GoodStar st)
    (a : ℚ) (ha0 : 0 < a) (ha : a < 50) :
    0 < ⌊(st.Temperature : ℚ) * sq (st.Radius / (2 * a))⌋ := by
  obtain ⟨-, hR, hT⟩ := hst
  have hTQ : (2400 : ℚ) ≤ (st.Temperature : ℚ) := by exact_mod_cast hT
  have harg : (1/32 : ℚ) * (1/32) ≤ st.Radius / (2 * a) := by
    rw [le_div_iff₀ (by positivity)]
    nlinarith
  have hsqrt : (1/32 : ℚ) ≤ sq (st.Radius / (2 * a)) := hsq _ _ (by norm_num) harg
  have h1 : (1 : ℚ) ≤ (st.Temperature : ℚ) * sq (st.Radius / (2 * a)) := by
    nlinarith
  have := Int.le_floor.mpr (by exact_mod_cast h1 : ((1:ℤ) : ℚ) ≤ (st.Temperature : ℚ) * sq (st.Radius / (2 * a)))
  omega

theorem surfaceTemp_nonneg_arg (sq : ℚ → ℚ) (hsq : SqrtSpec sq) (st : Star) (hst : GoodStar st)
    (a : ℚ) (ha0 : 0 < a) :
    0 ≤ (st.Temperature : ℚ) * sq (st.Radius / (2 * a)) := by
  obtain ⟨-, hR, hT⟩ := hst
  have hTQ : (2400 : ℚ) ≤ (st.Temperature : ℚ) := by exact_mod_cast hT
  have := SqrtSpec.nonneg sq hsq (st.Radius / (2 * a)) (by positivity)
  nlinarith

theorem generatePlanet_inv (sq : ℚ → ℚ) (star : Star) (j : ℕ) (r : Rand) (u : Uuid)
    (hsq : SqrtSpec sq) (hs : Stream01 r.stream) (hst : GoodStar star) :
    ∀ p r' u', generatePlanet sq star j r u = some (p, r', u') → PlanetInv sq star p := by
  intro p r' u' h
  rw [generatePlanet_eq] at h
  simp only [Option.some.injEq, Prod.mk.injEq] at h
  obtain ⟨hp, -, -⟩ := h
  subst hp
  have hax0 := hs r.idx
  have haxlb : (1/20 : ℚ) ≤ planetAxis r := by
    rw [planetAxis]
    nlinarith [hax0.1]
  have haxub : planetAxis r < 50 := by
    rw [planetAxis]
    nlinarith [hax0.2]
  have haxpos : (0:ℚ) < planetAxis r := by linarith
  have hM := hst.1
  refine ⟨rfl, haxlb, haxub, rfl, ?_, ?_, ?_, ?_, ?_, ?_, ?_, ?_, ?_⟩
  · have : (0:ℚ) < planetAxis r * planetAxis r * planetAxis r / star.Mass := by positivity
    have := SqrtSpec.pos sq hsq _ this
    show (0:ℚ) < 365.25 * sq _
    nlinarith
  · show (0:ℚ) ≤ planetEcc r
    rw [planetEcc]
    nlinarith [(hs (r.idx + 4)).1]
  · show planetEcc r < 3/10
    rw [planetEcc]
    nlinarith [(hs (r.idx + 4)).2]
  · show (0:ℚ) < planetMass r
    rw [planetMass, planetBands]
    split_ifs <;> nlinarith [(hs (r.idx + 2)).1]
  · show (0:ℚ) < planetRadius r
    rw [planetRadius, planetBands]
    split_ifs <;> nlinarith [(hs (r.idx + 3)).1]
  · show goInt32 ((star.Temperature : ℚ) * sq (star.Radius / (2.0 * planetAxis r))) = ⌊(star.Temperature : ℚ) * sq (star.Radius / (2 * planetAxis r))⌋
    rw [show (2.0 : ℚ) = 2 by norm_num]
    exact goInt32_nonneg_eq _ (surfaceTemp_nonneg_arg sq hsq star hst _ haxpos)
  · show (0:ℤ) < goInt32 ((star.Temperature : ℚ) * sq (star.Radius / (2.0 * planetAxis r)))
    rw [show (2.0 : ℚ) = 2 by norm_num]
    rw [goInt32_nonneg_eq _ (surfaceTemp_nonneg_arg sq hsq star hst _ haxpos)]
    exact surfaceTemp_pos sq hsq star hst _ haxpos haxub
  · show (1990:ℤ) ≤ 1990 + ⌊r.stream (r.idx + 8) * (35:ℚ)⌋
    have : (0:ℤ) ≤ ⌊r.stream (r.idx + 8) * (35:ℚ)⌋ :=
      Int.le_floor.mpr (by push_cast; nlinarith [(hs (r.idx + 8)).1])
    omega
  · show 1990 + ⌊r.stream (r.idx + 8) * (35:ℚ)⌋ ≤ (2024:ℤ)
    have : ⌊r.stream (r.idx + 8) * (35:ℚ)⌋ < 35 :=
      Int.floor_lt.mpr (by push_cast; nlinarith [(hs (r.idx + 8)).2])
    omega



theorem generateExoplanet_inv (sq : ℚ → ℚ) (star : Star) (j : ℕ) (r : Rand) (u : Uuid)
    (hsq : SqrtSpec sq) (hs : Stream01 r.stream) (hst : GoodStar star) :
    ∀ e r' u', generateExoplanet sq star j r u = some (e, r', u') → ExoInv sq star e := by
  intro e r' u' h
  rw [generateExoplanet_eq] at h
  simp only [Option.some.injEq, Prod.mk.injEq] at h
  obtain ⟨he, -, -⟩ := h
  subst he
  have hax0 := hs r.idx
  have haxlb : (1/100 : ℚ) ≤ exoAxis r := by
    rw [exoAxis]
    nlinarith [hax0.1]
  have haxub : exoAxis r < 5 := by
    rw [exoAxis]
    nlinarith [hax0.2]
  have haxpos : (0:ℚ) < exoAxis r := by linarith
  have hM := hst.1
  refine ⟨rfl, haxlb, haxub, rfl, ?_, ?_, ?_, ?_, ?_, ?_, ?_, ?_, ?_, ?_, ?_, ?_⟩
  · have : (0:ℚ) < exoAxis r * exoAxis r * exoAxis r / star.Mass := by positivity
    have := SqrtSpec.pos sq hsq _ this
    show (0:ℚ) < 365.25 * sq _
    nlinarith
  · show (0:ℚ) ≤ exoEcc r
    rw [exoEcc]
    nlinarith [(hs (r.idx + 4)).1]
  · show exoEcc r < 1/2
    rw [exoEcc]
    nlinarith [(hs (r.idx + 4)).2]
  · show (1/2:ℚ) ≤ exoMass r
    rw [exoMass]
    nlinarith [(hs (r.idx + 1)).1]
  · show exoMass r < 500
    rw [exoMass]
    nlinarith [(hs (r.idx + 1)).2]
  · show (1/2:ℚ) ≤ exoRadius r
    rw [exoRadius]
    nlinarith [(hs (r.idx + 2)).1]
  · show exoRadius r < 12
    rw [exoRadius]
    nlinarith [(hs (r.idx + 2)).2]
  · show (10:ℚ) ≤ exoHost r
    rw [exoHost]
    nlinarith [(hs (r.idx + 3)).1]
  · show goInt32 ((star.Temperature : ℚ) * sq (star.Radius / (2.0 * exoAxis r))) = ⌊(star.Temperature : ℚ) * sq (star.Radius / (2 * exoAxis r))⌋
    rw [show (2.0 : ℚ) = 2 by norm_num]
    exact goInt32_nonneg_eq _ (surfaceTemp_nonneg_arg sq hsq star hst _ haxpos)
  · show (0:ℤ) < goInt32 ((star.Temperature : ℚ) * sq (star.Radius / (2.0 * exoAxis r)))
    rw [show (2.0 : ℚ) = 2 by norm_num]
    rw [goInt32_nonneg_eq _ (surfaceTemp_nonneg_arg sq hsq star hst _ haxpos)]
    exact surfaceTemp_pos sq hsq star hst _ haxpos (by linarith)
  · show (1990:ℤ) ≤ 1990 + ⌊r.stream (r.idx + 6) * (35:ℚ)⌋
    have : (0:ℤ) ≤ ⌊r.stream (r.idx + 6) * (35:ℚ)⌋ :=
      Int.le_floor.mpr (by push_cast; nlinarith [(hs (r.idx + 6)).1])
    omega
  · show 1990 + ⌊r.stream (r.idx + 6) * (35:ℚ)⌋ ≤ (2024:ℤ)
    have : ⌊r.stream (r.idx + 6) * (35:ℚ)⌋ < 35 :=
      Int.floor_lt.mpr (by push_cast; nlinarith [(hs (r.idx + 6)).2])
    omega

theorem generateStar_good (r : Rand) (u : Uuid) (i : ℕ) (hs : Stream01 r.stream) :
    ∀ st r' u', generateStar r u i = some (st, r', u') → GoodStar st := by
  intro st r' u' h
  rw [generateStar_eq] at h
  simp only [Option.some.injEq, Prod.mk.injEq] at h
  obtain ⟨hst, -, -⟩ := h
  subst hst
  exact ⟨starMass_pos r hs, starRadius_ge r hs, starTemp_ge r hs⟩

theorem planetLoop_spec (sq : ℚ → ℚ) (star : Star) (hsq : SqrtSpec sq) (hst : GoodStar star) :
    ∀ (n j : ℕ) (r : Rand) (u : Uuid) (acc : GeneratedData), Stream01 r.stream →
    ∃ acc' r' u', planetLoop sq star n j r u acc = some (acc', r', u') ∧
      r'.stream = r.stream ∧ u'.stream = u.stream ∧
      acc'.Stars = acc.Stars ∧ acc'.Exoplanets = acc.Exoplanets ∧
      acc'.Planets.length = acc.Planets.length + n ∧
      (∀ p ∈ acc'.Planets, p ∈ acc.Planets ∨ PlanetInv sq star p) := by
  intro n
  induction n with
  | zero =>
    intro j r u acc hs
    exact ⟨acc, r, u, rfl, rfl, rfl, rfl, rfl, by simp, fun p hp => Or.inl hp⟩
  | succ k ih =>
    intro j r u acc hs
    obtain ⟨acc', r', u', heq, hrs, hus, hS, hE, hlen, hmem⟩ :=
      ih (j + 1) ⟨r.stream, r.idx + 9⟩ ⟨u.stream, u.idx + 1⟩
        ⟨acc.Stars, acc.Planets ++ [⟨u.stream u.idx,
          star.Name ++ "-Planet-" ++ toString j,
          365.25 * sq (planetAxis r * planetAxis r * planetAxis r / star.Mass),
          planetAxis r, planetEcc r, planetMass r, planetRadius r,
          atmosphereTypes.getD ⌊r.stream (r.idx + 5) * (8 : ℚ)⌋.toNat "",
          goInt32 ((star.Temperature : ℚ) * sq (star.Radius / (2.0 * planetAxis r))),
          decide (r.stream (r.idx + 6) < 0.2), decide (r.stream (r.idx + 7) < 0.6),
          1990 + ⌊r.stream (r.idx + 8) * (35 : ℚ)⌋, star.ID⟩], acc.Exoplanets⟩ hs
    refine ⟨acc', r', u', ?_, hrs, hus, hS, hE, ?_, ?_⟩
    · simp only [planetLoop, generatePlanet_eq, Option.bind_eq_bind, Option.some_bind]
      exact heq
    · simp at hlen
      omega
    · intro p hp
      rcases hmem p hp with hin | hinv
      · simp only [List.mem_append, List.mem_singleton] at hin
        rcases hin with h | h
        · exact Or.inl h
        · subst h
          exact Or.inr (generatePlanet_inv sq star j r u hsq hs hst _ _ _ (generatePlanet_eq sq star j r u))
      · exact Or.inr hinv

theorem exoLoop_spec (sq : ℚ → ℚ) (star : Star) (hsq : SqrtSpec sq) (hst : GoodStar star) :
    ∀ (n j : ℕ) (r : Rand) (u : Uuid) (acc : GeneratedData), Stream01 r.stream →
    ∃ acc' r' u', exoLoop sq star n j r u acc = some (acc', r', u') ∧
      r'.stream = r.stream ∧ u'.stream = u.stream ∧
      acc'.Stars = acc.Stars ∧ acc'.Planets = acc.Planets ∧
      acc'.Exoplanets.length = acc.Exoplanets.length + n ∧
      (∀ e ∈ acc'.Exoplanets, e ∈ acc.Exoplanets ∨ ExoInv sq star e) := by
  intro n
  induction n with
  | zero =>
    intro j r u acc hs
    exact ⟨acc, r, u, rfl, rfl, rfl, rfl, rfl, by simp, fun e he => Or.inl he⟩
  | succ k ih =>
    intro j r u acc hs
    obtain ⟨acc', r', u', heq, hrs, hus, hS, hP, hlen, hmem⟩ :=
      ih (j + 1) ⟨r.stream, r.idx + 7⟩ ⟨u.stream, u.idx + 1⟩
        ⟨acc.Stars, acc.Planets, acc.Exoplanets ++ [⟨u.stream u.idx,
          star.Name ++ "-Exo-" ++ toString j,
          365.25 * sq (exoAxis r * exoAxis r * exoAxis r / star.Mass),
          exoAxis r, exoEcc r, exoMass r, exoRadius r,
          detectionMethods.getD ⌊r.stream (r.idx + 5) * (6 : ℚ)⌋.toNat "",
          exoHost r,
          goInt32 ((star.Temperature : ℚ) * sq (star.Radius / (2.0 * exoAxis r))),
          1990 + ⌊r.stream (r.idx + 6) * (35 : ℚ)⌋, star.ID⟩]⟩ hs
    refine ⟨acc', r', u', ?_, hrs, hus, hS, hP, ?_, ?_⟩
    · simp only [exoLoop, generateExoplanet_eq, Option.bind_eq_bind, Option.some_bind]
      exact heq
    · simp at hlen
      omega
    · intro e he
      rcases hmem e he with hin | hinv
      · simp only [List.mem_append, List.mem_singleton] at hin
        rcases hin with h | h
        · exact Or.inl h
        · subst h
          exact Or.inr (generateExoplanet_inv sq star j r u hsq hs hst _ _ _ (generateExoplanet_eq sq star j r u))
      · exact Or.inr hinv



theorem count_toNat_le (P : ℤ) (f : ℚ) (hP : 0 ≤ P) (_hf0 : 0 ≤ f) (hf1 : f < 1) :
    ⌊f * ((P : ℚ) + 1)⌋.toNat ≤ P.toNat := by
  have hPQ : (0:ℚ) ≤ (P : ℚ) := by exact_mod_cast hP
  have hlt : ⌊f * ((P : ℚ) + 1)⌋ < P + 1 := by
    apply Int.floor_lt.mpr
    push_cast
    nlinarith
  omega

theorem starLoop_spec (sq : ℚ → ℚ) (cfg : Config) (hsq : SqrtSpec sq)
    (hP : 0 ≤ cfg.PlanetsPerStar) (hE : 0 ≤ cfg.ExoPerStar) :
    ∀ (n i : ℕ) (r : Rand) (u : Uuid) (acc : GeneratedData), Stream01 r.stream →
    ∃ acc' r' u', starLoop sq cfg n i r u acc = some (acc', r', u') ∧
      r'.stream = r.stream ∧ u'.stream = u.stream ∧
      (∃ ext, acc'.Stars = acc.Stars ++ ext) ∧
      acc'.Stars.length = acc.Stars.length + n ∧
      acc'.Planets.length ≤ acc.Planets.length + n * cfg.PlanetsPerStar.toNat ∧
      acc'.Exoplanets.length ≤ acc.Exoplanets.length + n * cfg.ExoPerStar.toNat ∧
      (∀ st ∈ acc'.Stars, st ∈ acc.Stars ∨ GoodStar st) ∧
      (∀ p ∈ acc'.Planets, p ∈ acc.Planets ∨ ∃ st ∈ acc'.Stars, PlanetInv sq st p) ∧
      (∀ e ∈ acc'.Exoplanets, e ∈ acc.Exoplanets ∨ ∃ st ∈ acc'.Stars, ExoInv sq st e) := by
  intro n
  induction n with
  | zero =>
    intro i r u acc hs
    exact ⟨acc, r, u, rfl, rfl, rfl, ⟨[], by simp⟩, by simp, by simp, by simp,
      fun st h => Or.inl h, fun p h => Or.inl h, fun e h => Or.inl h⟩
  | succ k ih =>
    intro i r u acc hs
    simp only [starLoop, generateStar_eq, Option.bind_eq_bind, Option.some_bind]
    rw [Intn_pos _ _ (by omega : (0:ℤ) < cfg.PlanetsPerStar + 1)]
    simp only [Option.some_bind]
    set S : Star := ⟨u.stream u.idx, "Star-" ++ toString (i + 1), spectralString r,
      starMass r, starRadius r, starTemp r⟩ with hSdef
    have hgoodS : GoodStar S := ⟨starMass_pos r hs, starRadius_ge r hs, starTemp_ge r hs⟩
    obtain ⟨acc2, r3, u3, heq2, hr3, hu3, hS2, hE2, hlen2, hmem2⟩ :=
      planetLoop_spec sq S hsq hgoodS
        ⌊r.stream (r.idx + 5) * ((cfg.PlanetsPerStar + 1 : ℤ) : ℚ)⌋.toNat 1
        ⟨r.stream, r.idx + 6⟩ ⟨u.stream, u.idx + 1⟩
        ⟨acc.Stars ++ [S], acc.Planets, acc.Exoplanets⟩ hs
    rw [heq2]
    simp only [Option.some_bind]
    rw [Intn_pos _ _ (by omega : (0:ℤ) < cfg.ExoPerStar + 1)]
    simp only [Option.some_bind]
    have hs3 : Stream01 r3.stream := by
      rw [hr3]
      exact hs
    obtain ⟨acc3, r5, u5, heq3, hr5, hu5, hS3, hP3, hlen3, hmem3⟩ :=
      exoLoop_spec sq S hsq hgoodS
        ⌊r3.stream r3.idx * ((cfg.ExoPerStar + 1 : ℤ) : ℚ)⌋.toNat 1
        ⟨r3.stream, r3.idx + 1⟩ u3 acc2 hs3
    rw [heq3]
    simp only [Option.some_bind]
    have hs5 : Stream01 r5.stream := by
      rw [hr5]
      exact hs3
    obtain ⟨acc4, r6, u6, heq4, hr6, hu6, ⟨ext, hext⟩, hlen4, hplen4, helen4, hstm4, hpm4, hem4⟩ :=
      ih (i + 1) r5 u5 acc3 hs5
    rw [heq4]
    have hstars31 : acc3.Stars = acc.Stars ++ [S] := by
      rw [hS3, hS2]
    have hplanets32 : acc3.Planets = acc2.Planets := hP3
    have hSmem4 : S ∈ acc4.Stars := by
      rw [hext, hstars31]
      simp
    refine ⟨acc4, r6, u6, rfl, ?_, ?_, ?_, ?_, ?_, ?_, ?_, ?_, ?_⟩
    · rw [hr6, hr5, hr3]
    · rw [hu6, hu5, hu3]
    · exact ⟨[S] ++ ext, by rw [hext, hstars31, List.append_assoc]⟩
    · rw [hlen4, hstars31]
      simp
      omega
    · have hnp : ⌊r.stream (r.idx + 5) * ((cfg.PlanetsPerStar : ℚ) + 1)⌋.toNat ≤ cfg.PlanetsPerStar.toNat :=
        count_toNat_le _ _ hP (hs (r.idx + 5)).1 (hs (r.idx + 5)).2
      rw [hplanets32] at hplen4
      simp only at hlen2
      push_cast at hplen4 hlen2 hnp
      have hsm : (k + 1) * cfg.PlanetsPerStar.toNat
          = k * cfg.PlanetsPerStar.toNat + cfg.PlanetsPerStar.toNat := by ring
      rw [hsm]
      linarith [hplen4, hlen2, hnp]
    · have hne : ⌊r3.stream r3.idx * ((cfg.ExoPerStar : ℚ) + 1)⌋.toNat ≤ cfg.ExoPerStar.toNat :=
        count_toNat_le _ _ hE (hs3 r3.idx).1 (hs3 r3.idx).2
      rw [hE2] at hlen3
      simp only at hlen3
      push_cast at helen4 hlen3 hne
      have hsm : (k + 1) * cfg.ExoPerStar.toNat
          = k * cfg.ExoPerStar.toNat + cfg.ExoPerStar.toNat := by ring
      rw [hsm]
      linarith [helen4, hlen3, hne]
    · intro st hst
      rcases hstm4 st hst with hin | hgood
      · rw [hstars31] at hin
        simp only [List.mem_append, List.mem_singleton] at hin
        rcases hin with h | h
        · exact Or.inl h
        · subst h
          exact Or.inr hgoodS
      · exact Or.inr hgood
    · intro p hp
      rcases hpm4 p hp with hin | hinv
      · rw [hplanets32] at hin
        rcases hmem2 p hin with hin2 | hinv2
        · exact Or.inl hin2
        · exact Or.inr ⟨S, hSmem4, hinv2⟩
      · obtain ⟨st, hstin, hstinv⟩ := hinv
        exact Or.inr ⟨st, hstin, hstinv⟩
    · intro e he
      rcases hem4 e he with hin | hinv
      · rcases hmem3 e hin with hin2 | hinv2
        · rw [hE2] at hin2
          exact Or.inl hin2
        · exact Or.inr ⟨S, hSmem4, hinv2⟩
      · obtain ⟨st, hstin, hstinv⟩ := hinv
        exact Or.inr ⟨st, hstin, hstinv⟩



theorem GenerateAll_spec (sq : ℚ → ℚ) (cfg : Config) (r : Rand) (u : Uuid)
    (hsq : SqrtSpec sq) (hs : Stream01 r.stream)
    (hN : 0 ≤ cfg.NumStars) (hP : 0 ≤ cfg.PlanetsPerStar) (hE : 0 ≤ cfg.ExoPerStar) :
    ∃ d, GenerateAll sq cfg r u = some d ∧
      (d.Stars.length : ℤ) = cfg.NumStars ∧
      (d.Planets.length : ℤ) ≤ cfg.NumStars * cfg.PlanetsPerStar ∧
      (d.Exoplanets.length : ℤ) ≤ cfg.NumStars * cfg.ExoPerStar ∧
      (∀ st ∈ d.Stars, GoodStar st) ∧
      (∀ p ∈ d.Planets, ∃ st ∈ d.Stars, PlanetInv sq st p) ∧
      (∀ e ∈ d.Exoplanets, ∃ st ∈ d.Stars, ExoInv sq st e) := by
  obtain ⟨acc', r', u', heq, -, -, -, hlen, hplen, helen, hstm, hpm, hem⟩ :=
    starLoop_spec sq cfg hsq hP hE cfg.NumStars.toNat 0 r u ⟨[], [], []⟩ hs
  refine ⟨acc', ?_, ?_, ?_, ?_, ?_, ?_, ?_⟩
  · rw [GenerateAll, if_neg (not_lt.mpr hN), heq]
    rfl
  · simp only at hlen
    simp at hlen
    rw [hlen]
    exact_mod_cast Int.toNat_of_nonneg hN
  · simp only at hplen
    simp at hplen
    have : ((cfg.NumStars.toNat * cfg.PlanetsPerStar.toNat : ℕ) : ℤ) = cfg.NumStars * cfg.PlanetsPerStar := by
      push_cast [Int.toNat_of_nonneg hN, Int.toNat_of_nonneg hP]
      ring
    calc (acc'.Planets.length : ℤ) ≤ ((cfg.NumStars.toNat * cfg.PlanetsPerStar.toNat : ℕ) : ℤ) := by
          exact_mod_cast hplen
      _ = cfg.NumStars * cfg.PlanetsPerStar := this
  · simp only at helen
    simp at helen
    have : ((cfg.NumStars.toNat * cfg.ExoPerStar.toNat : ℕ) : ℤ) = cfg.NumStars * cfg.ExoPerStar := by
      push_cast [Int.toNat_of_nonneg hN, Int.toNat_of_nonneg hE]
      ring
    calc (acc'.Exoplanets.length : ℤ) ≤ ((cfg.NumStars.toNat * cfg.ExoPerStar.toNat : ℕ) : ℤ) := by
          exact_mod_cast helen
      _ = cfg.NumStars * cfg.ExoPerStar := this
  · intro st hst
    rcases hstm st hst with h | h
    · simp at h
    · exact h
  · intro p hp
    rcases hpm p hp with h | h
    · simp at h
    · exact h
  · intro e he
    rcases hem e he with h | h
    · simp at h
    · exact h



theorem eraseStar_fields (s1 s2 : Star) (h : eraseStar s1 = eraseStar s2) :
    s1.Name = s2.Name ∧ s1.SpectralType = s2.SpectralType ∧ s1.Mass = s2.Mass ∧
    s1.Radius = s2.Radius ∧ s1.Temperature = s2.Temperature := by
  have h1 := congrArg Star.Name h
  have h2 := congrArg Star.SpectralType h
  have h3 := congrArg Star.Mass h
  have h4 := congrArg Star.Radius h
  have h5 := congrArg Star.Temperature h
  exact ⟨h1, h2, h3, h4, h5⟩

theorem planetLoop_erase (sq : ℚ → ℚ) (s1 s2 : Star) (h : eraseStar s1 = eraseStar s2) :
    ∀ (n j : ℕ) (r : Rand) (u1 u2 : Uuid) (acc1 acc2 : GeneratedData),
    eraseData acc1 = eraseData acc2 →
    Option.map (fun x => (eraseData x.1, x.2.1)) (planetLoop sq s1 n j r u1 acc1) =
    Option.map (fun x => (eraseData x.1, x.2.1)) (planetLoop sq s2 n j r u2 acc2) := by
  obtain ⟨hN, hSp, hM, hR, hT⟩ := eraseStar_fields s1 s2 h
  intro n
  induction n with
  | zero =>
    intro j r u1 u2 acc1 acc2 hacc
    simp [planetLoop, hacc]
  | succ k ih =>
    intro j r u1 u2 acc1 acc2 hacc
    have hS0 := congrArg GeneratedData.Stars hacc
    have hS : List.map eraseStar acc1.Stars = List.map eraseStar acc2.Stars := hS0
    have hP0 := congrArg GeneratedData.Planets hacc
    have hPm : List.map erasePlanet acc1.Planets = List.map erasePlanet acc2.Planets := hP0
    have hE0 := congrArg GeneratedData.Exoplanets hacc
    have hEm : List.map eraseExo acc1.Exoplanets = List.map eraseExo acc2.Exoplanets := hE0
    simp only [planetLoop, generatePlanet_eq, Option.bind_eq_bind, Option.some_bind]
    apply ih
    simp only [eraseData, GeneratedData.mk.injEq, List.map_append]
    refine ⟨hS, ?_, hEm⟩
    rw [hPm]
    simp [erasePlanet, hN, hM, hR, hT]

theorem exoLoop_erase (sq : ℚ → ℚ) (s1 s2 : Star) (h : eraseStar s1 = eraseStar s2) :
    ∀ (n j : ℕ) (r : Rand) (u1 u2 : Uuid) (acc1 acc2 : GeneratedData),
    eraseData acc1 = eraseData acc2 →
    Option.map (fun x => (eraseData x.1, x.2.1)) (exoLoop sq s1 n j r u1 acc1) =
    Option.map (fun x => (eraseData x.1, x.2.1)) (exoLoop sq s2 n j r u2 acc2) := by
  obtain ⟨hN, hSp, hM, hR, hT⟩ := eraseStar_fields s1 s2 h
  intro n
  induction n with
  | zero =>
    intro j r u1 u2 acc1 acc2 hacc
    simp [exoLoop, hacc]
  | succ k ih =>
    intro j r u1 u2 acc1 acc2 hacc
    have hS0 := congrArg GeneratedData.Stars hacc
    have hS : List.map eraseStar acc1.Stars = List.map eraseStar acc2.Stars := hS0
    have hP0 := congrArg GeneratedData.Planets hacc
    have hPm : List.map erasePlanet acc1.Planets = List.map erasePlanet acc2.Planets := hP0
    have hE0 := congrArg GeneratedData.Exoplanets hacc
    have hEm : List.map eraseExo acc1.Exoplanets = List.map eraseExo acc2.Exoplanets := hE0
    simp only [exoLoop, generateExoplanet_eq, Option.bind_eq_bind, Option.some_bind]
    apply ih
    simp only [eraseData, GeneratedData.mk.injEq, List.map_append]
    refine ⟨hS, hPm, ?_⟩
    rw [hEm]
    simp [eraseExo, hN, hM, hR, hT]

theorem starLoop_erase (sq : ℚ → ℚ) (cfg : Config) :
    ∀ (n i : ℕ) (r : Rand) (u1 u2 : Uuid) (acc1 acc2 : GeneratedData),
    eraseData acc1 = eraseData acc2 →
    Option.map (fun x => (eraseData x.1, x.2.1)) (starLoop sq cfg n i r u1 acc1) =
    Option.map (fun x => (eraseData x.1, x.2.1)) (starLoop sq cfg n i r u2 acc2) := by
  intro n
  induction n with
  | zero =>
    intro i r u1 u2 acc1 acc2 hacc
    simp [starLoop, hacc]
  | succ k ih =>
    intro i r u1 u2 acc1 acc2 hacc
    have hS0 := congrArg GeneratedData.Stars hacc
    have hS : List.map eraseStar acc1.Stars = List.map eraseStar acc2.Stars := hS0
    have hP0 := congrArg GeneratedData.Planets hacc
    have hPm : List.map erasePlanet acc1.Planets = List.map erasePlanet acc2.Planets := hP0
    have hE0 := congrArg GeneratedData.Exoplanets hacc
    have hEm : List.map eraseExo acc1.Exoplanets = List.map eraseExo acc2.Exoplanets := hE0
    simp only [starLoop, generateStar_eq, Option.bind_eq_bind, Option.some_bind]
    cases hI : Intn (cfg.PlanetsPerStar + 1) ⟨r.stream, r.idx + 5⟩ with
    | none => rfl
    | some v =>
      simp only [Option.some_bind]
      have hstar : eraseStar ⟨u1.stream u1.idx, "Star-" ++ toString (i + 1), spectralString r,
          starMass r, starRadius r, starTemp r⟩ =
          eraseStar ⟨u2.stream u2.idx, "Star-" ++ toString (i + 1), spectralString r,
          starMass r, starRadius r, starTemp r⟩ := rfl
      have hacc1 : eraseData ⟨acc1.Stars ++ [⟨u1.stream u1.idx, "Star-" ++ toString (i + 1),
          spectralString r, starMass r, starRadius r, starTemp r⟩], acc1.Planets, acc1.Exoplanets⟩ =
          eraseData ⟨acc2.Stars ++ [⟨u2.stream u2.idx, "Star-" ++ toString (i + 1),
          spectralString r, starMass r, starRadius r, starTemp r⟩], acc2.Planets, acc2.Exoplanets⟩ := by
        simp only [eraseData, GeneratedData.mk.injEq, List.map_append]
        refine ⟨?_, hPm, hEm⟩
        rw [hS]
        simp [eraseStar]
      have hpl := planetLoop_erase sq _ _ hstar v.1.toNat 1 v.2 ⟨u1.stream, u1.idx + 1⟩
        ⟨u2.stream, u2.idx + 1⟩ _ _ hacc1
      cases hpl1 : planetLoop sq ⟨u1.stream u1.idx, "Star-" ++ toString (i + 1), spectralString r,
          starMass r, starRadius r, starTemp r⟩ v.1.toNat 1 v.2 ⟨u1.stream, u1.idx + 1⟩
          ⟨acc1.Stars ++ [⟨u1.stream u1.idx, "Star-" ++ toString (i + 1), spectralString r,
          starMass r, starRadius r, starTemp r⟩], acc1.Planets, acc1.Exoplanets⟩ with
      | none =>
        rw [hpl1] at hpl
        cases hpl2 : planetLoop sq ⟨u2.stream u2.idx, "Star-" ++ toString (i + 1), spectralString r,
            starMass r, starRadius r, starTemp r⟩ v.1.toNat 1 v.2 ⟨u2.stream, u2.idx + 1⟩
            ⟨acc2.Stars ++ [⟨u2.stream u2.idx, "Star-" ++ toString (i + 1), spectralString r,
            starMass r, starRadius r, starTemp r⟩], acc2.Planets, acc2.Exoplanets⟩ with
        | none => rfl
        | some w2 =>
          rw [hpl2] at hpl
          simp at hpl
      | some w1 =>
        rw [hpl1] at hpl
        cases hpl2 : planetLoop sq ⟨u2.stream u2.idx, "Star-" ++ toString (i + 1), spectralString r,
            starMass r, starRadius r, starTemp r⟩ v.1.toNat 1 v.2 ⟨u2.stream, u2.idx + 1⟩
            ⟨acc2.Stars ++ [⟨u2.stream u2.idx, "Star-" ++ toString (i + 1), spectralString r,
            starMass r, starRadius r, starTemp r⟩], acc2.Planets, acc2.Exoplanets⟩ with
        | none =>
          rw [hpl2] at hpl
          simp at hpl
        | some w2 =>
          rw [hpl2] at hpl
          simp at hpl
          obtain ⟨hw1, hw2⟩ := hpl
          simp only [Option.some_bind]
          rw [← hw2]
          cases hI2 : Intn (cfg.ExoPerStar + 1) w1.2.1 with
          | none => rfl
          | some v2 =>
            simp only [Option.some_bind]
            have hex := exoLoop_erase sq _ _ hstar v2.1.toNat 1 v2.2 w1.2.2 w2.2.2 _ _ hw1
            cases hex1 : exoLoop sq ⟨u1.stream u1.idx, "Star-" ++ toString (i + 1), spectralString r,
                starMass r, starRadius r, starTemp r⟩ v2.1.toNat 1 v2.2 w1.2.2 w1.1 with
            | none =>
              rw [hex1] at hex
              cases hex2 : exoLoop sq ⟨u2.stream u2.idx, "Star-" ++ toString (i + 1), spectralString r,
                  starMass r, starRadius r, starTemp r⟩ v2.1.toNat 1 v2.2 w2.2.2 w2.1 with
              | none => rfl
              | some z2 =>
                rw [hex2] at hex
                simp at hex
            | some z1 =>
              rw [hex1] at hex
              cases hex2 : exoLoop sq ⟨u2.stream u2.idx, "Star-" ++ toString (i + 1), spectralString r,
                  starMass r, starRadius r, starTemp r⟩ v2.1.toNat 1 v2.2 w2.2.2 w2.1 with
              | none =>
                rw [hex2] at hex
                simp at hex
              | some z2 =>
                rw [hex2] at hex
                simp at hex
                obtain ⟨hz1, hz2⟩ := hex
                simp only [Option.some_bind]
                rw [← hz2]
                exact ih (i + 1) z1.2.1 z1.2.2 z2.2.2 z1.1 z2.1 hz1

theorem GenerateAll_erase (sq : ℚ → ℚ) (cfg : Config) (r : Rand) (u1 u2 : Uuid) :
    Option.map eraseData (GenerateAll sq cfg r u1) =
    Option.map eraseData (GenerateAll sq cfg r u2) := by
  rw [GenerateAll, GenerateAll]
  by_cases h : cfg.NumStars < 0
  · simp [h]
  · simp only [if_neg h]
    have := starLoop_erase sq cfg cfg.NumStars.toNat 0 r u1 u2 ⟨[], [], []⟩ ⟨[], [], []⟩ rfl
    rw [Option.map_map, Option.map_map]
    have hcomp : ∀ w : Option (GeneratedData × Rand × Uuid),
        Option.map (eraseData ∘ fun x => x.1) w =
        Option.map (fun y => y.1) (Option.map (fun x => (eraseData x.1, x.2.1)) w) := by
      intro w
      cases w <;> simp
    rw [hcomp, hcomp, this]

theorem totalWeight_eq : totalWeight = 10128003/100000 := by
  norm_num [totalWeight, weights]

theorem cumWeight0_eq : cumWeight 0 = 3/100000 := by norm_num [cumWeight, weights]

theorem cumWeight1_eq : cumWeight 1 = 13003/100000 := by norm_num [cumWeight, weights]

theorem cumWeight2_eq : cumWeight 2 = 213003/100000 := by norm_num [cumWeight, weights]

theorem cumWeight3_eq : cumWeight 3 = 513003/100000 := by norm_num [cumWeight, weights]

theorem cumWeight4_eq : cumWeight 4 = 1273003/100000 := by norm_num [cumWeight, weights]

theorem cumWeight5_eq : cumWeight 5 = 2483003/100000 := by norm_num [cumWeight, weights]

theorem cumWeight6_eq : cumWeight 6 = 10128003/100000 := by norm_num [cumWeight, weights]

theorem scanWeights_spec (v : ℚ) (_h0 : 0 ≤ v) (h1 : v < totalWeight) :
    scanWeights v < 7 ∧ v ≤ cumWeight (scanWeights v) ∧
    ∀ j < scanWeights v, cumWeight j < v := by
  rw [totalWeight_eq] at h1
  simp only [scanWeights, scanAux, weights]
  split_ifs with a1 a2 a3 a4 a5 a6 a7
  · norm_num at a1
    refine ⟨by norm_num, by rw [cumWeight0_eq]; linarith, ?_⟩
    intro j hj
    exact absurd hj (by omega)
  · norm_num at a1 a2
    refine ⟨by norm_num, by rw [cumWeight1_eq]; linarith, ?_⟩
    intro j hj
    interval_cases j <;>
      simp only [cumWeight0_eq, cumWeight1_eq, cumWeight2_eq, cumWeight3_eq, cumWeight4_eq,
        cumWeight5_eq, cumWeight6_eq] <;> linarith
  · norm_num at a1 a2 a3
    refine ⟨by norm_num, by rw [cumWeight2_eq]; linarith, ?_⟩
    intro j hj
    interval_cases j <;>
      simp only [cumWeight0_eq, cumWeight1_eq, cumWeight2_eq, cumWeight3_eq, cumWeight4_eq,
        cumWeight5_eq, cumWeight6_eq] <;> linarith
  · norm_num at a1 a2 a3 a4
    refine ⟨by norm_num, by rw [cumWeight3_eq]; linarith, ?_⟩
    intro j hj
    interval_cases j <;>
      simp only [cumWeight0_eq, cumWeight1_eq, cumWeight2_eq, cumWeight3_eq, cumWeight4_eq,
        cumWeight5_eq, cumWeight6_eq] <;> linarith
  · norm_num at a1 a2 a3 a4 a5
    refine ⟨by norm_num, by rw [cumWeight4_eq]; linarith, ?_⟩
    intro j hj
    interval_cases j <;>
      simp only [cumWeight0_eq, cumWeight1_eq, cumWeight2_eq, cumWeight3_eq, cumWeight4_eq,
        cumWeight5_eq, cumWeight6_eq] <;> linarith
  · norm_num at a1 a2 a3 a4 a5 a6
    refine ⟨by norm_num, by rw [cumWeight5_eq]; linarith, ?_⟩
    intro j hj
    interval_cases j <;>
      simp only [cumWeight0_eq, cumWeight1_eq, cumWeight2_eq, cumWeight3_eq, cumWeight4_eq,
        cumWeight5_eq, cumWeight6_eq] <;> linarith
  · norm_num at a1 a2 a3 a4 a5 a6 a7
    refine ⟨by norm_num, by rw [cumWeight6_eq]; linarith, ?_⟩
    intro j hj
    interval_cases j <;>
      simp only [cumWeight0_eq, cumWeight1_eq, cumWeight2_eq, cumWeight3_eq, cumWeight4_eq,
        cumWeight5_eq, cumWeight6_eq] <;> linarith
  · exfalso
    norm_num at a7
    linarith

theorem sqrtModel_spec : SqrtSpec sqrtModel := by
  intro x y hy hyx
  rw [sqrtModel]
  nlinarith [sq_nonneg (y - 1)]

theorem zeroRand_stream01 : Stream01 zeroRand.stream := by
  intro n
  constructor <;> norm_num [zeroRand]

/-- C1 (counterexample): with identical configuration (`NumStars = 1`,
`PlanetsPerStar = 0`, `ExoPerStar = 0`, seed `7`, hence the same seeded
stream `zeroRand`), two calls of `GenerateAll` that observe different states
of the process-global `uuid.New()` source produce different results: the
single star's `ID` field differs, so the results are not identical
field-for-field including the ID identifier fields. -/
theorem generateAll_identical_ids_counterexample :
    Option.map (fun d => d.Stars.map Star.ID)
      (GenerateAll sqrtModel ⟨1, 0, 0, 7⟩ zeroRand uuidA) = some ["uuid-a"] ∧
    Option.map (fun d => d.Stars.map Star.ID)
      (GenerateAll sqrtModel ⟨1, 0, 0, 7⟩ zeroRand uuidB) = some ["uuid-b"] ∧
    GenerateAll sqrtModel ⟨1, 0, 0, 7⟩ zeroRand uuidA ≠
      GenerateAll sqrtModel ⟨1, 0, 0, 7⟩ zeroRand uuidB := by
  have hA : Option.map (fun d => d.Stars.map Star.ID)
      (GenerateAll sqrtModel ⟨1, 0, 0, 7⟩ zeroRand uuidA) = some ["uuid-a"] := by
    norm_num [GenerateAll, starLoop, planetLoop, exoLoop, generateStar_eq, Intn,
      zeroRand, uuidA]
  have hB : Option.map (fun d => d.Stars.map Star.ID)
      (GenerateAll sqrtModel ⟨1, 0, 0, 7⟩ zeroRand uuidB) = some ["uuid-b"] := by
    norm_num [GenerateAll, starLoop, planetLoop, exoLoop, generateStar_eq, Intn,
      zeroRand, uuidB]
  refine ⟨hA, hB, fun h => ?_⟩
  rw [h] at hA
  exact absurd (hA.symm.trans hB) (by decide)

/-- C1 (amended): two calls of `GenerateAll` with identical configuration
(including seed, hence the same seeded stream `r`) produce results that are
identical field-for-field in every field except the `ID` fields (and the
`StarID` back-references), which come from the process-global, non-seeded
`uuid.New()` source: erasing the UUID-derived fields makes the two results
equal, for any two states `u1`, `u2` of that source. -/
theorem generateAll_reproducible_modulo_ids (sq : ℚ → ℚ) (cfg : Config) (r : Rand)
    (u1 u2 : Uuid) :
    Option.map eraseData (GenerateAll sq cfg r u1) =
    Option.map eraseData (GenerateAll sq cfg r u2) :=
  GenerateAll_erase sq cfg r u1 u2

/-- C2: for every configuration with `NumStars ≥ 0`, `PlanetsPerStar ≥ 0`,
`ExoPerStar ≥ 0` and any seed (any well-formed seeded stream), `GenerateAll`
returns data with exactly `NumStars` stars, at most `NumStars *
PlanetsPerStar` planets and at most `NumStars * ExoPerStar` exoplanets. -/
theorem generateAll_cardinality (sq : ℚ → ℚ) (cfg : Config) (r : Rand) (u : Uuid)
    (hsq : SqrtSpec sq) (hs : Stream01 r.stream)
    (hN : 0 ≤ cfg.NumStars) (hP : 0 ≤ cfg.PlanetsPerStar) (hE : 0 ≤ cfg.ExoPerStar) :
    ∃ d, GenerateAll sq cfg r u = some d ∧
      (d.Stars.length : ℤ) = cfg.NumStars ∧
      (d.Planets.length : ℤ) ≤ cfg.NumStars * cfg.PlanetsPerStar ∧
      (d.Exoplanets.length : ℤ) ≤ cfg.NumStars * cfg.ExoPerStar := by
  obtain ⟨d, h1, h2, h3, h4, -, -, -⟩ := GenerateAll_spec sq cfg r u hsq hs hN hP hE
  exact ⟨d, h1, h2, h3, h4⟩

theorem generateAll_cardinality_witness :
    SqrtSpec sqrtModel ∧ Stream01 zeroRand.stream ∧
    ∃ d, GenerateAll sqrtModel ⟨3, 2, 1, 42⟩ zeroRand uuidA = some d ∧
      (d.Stars.length : ℤ) = (3:ℤ) ∧
      (d.Planets.length : ℤ) ≤ (3:ℤ) * 2 ∧
      (d.Exoplanets.length : ℤ) ≤ (3:ℤ) * 1 :=
  ⟨sqrtModel_spec, zeroRand_stream01,
    generateAll_cardinality sqrtModel ⟨3, 2, 1, 42⟩ zeroRand uuidA sqrtModel_spec
      zeroRand_stream01 (by norm_num) (by norm_num) (by norm_num)⟩

/-- C3: for every pre-validated configuration (all counts nonnegative) and
any seed, every planet and exoplanet in the result of `GenerateAll` carries
a `StarID` equal to the `ID` of some star in the `Stars` sequence of the
same result. -/
theorem generateAll_referential_integrity (sq : ℚ → ℚ) (cfg : Config) (r : Rand) (u : Uuid)
    (hsq : SqrtSpec sq) (hs : Stream01 r.stream)
    (hN : 0 ≤ cfg.NumStars) (hP : 0 ≤ cfg.PlanetsPerStar) (hE : 0 ≤ cfg.ExoPerStar) :
    ∃ d, GenerateAll sq cfg r u = some d ∧
      (∀ p ∈ d.Planets, ∃ st ∈ d.Stars, p.StarID = st.ID) ∧
      (∀ e ∈ d.Exoplanets, ∃ st ∈ d.Stars, e.StarID = st.ID) := by
  obtain ⟨d, h1, -, -, -, -, hp, he⟩ := GenerateAll_spec sq cfg r u hsq hs hN hP hE
  refine ⟨d, h1, ?_, ?_⟩
  · intro p hmem
    obtain ⟨st, hin, hinv⟩ := hp p hmem
    exact ⟨st, hin, hinv.1⟩
  · intro e hmem
    obtain ⟨st, hin, hinv⟩ := he e hmem
    exact ⟨st, hin, hinv.1⟩

theorem generateAll_referential_integrity_witness :
    SqrtSpec sqrtModel ∧ Stream01 zeroRand.stream ∧
    ∃ d, GenerateAll sqrtModel ⟨2, 1, 1, 5⟩ zeroRand uuidA = some d ∧
      (∀ p ∈ d.Planets, ∃ st ∈ d.Stars, p.StarID = st.ID) ∧
      (∀ e ∈ d.Exoplanets, ∃ st ∈ d.Stars, e.StarID = st.ID) :=
  ⟨sqrtModel_spec, zeroRand_stream01,
    generateAll_referential_integrity sqrtModel ⟨2, 1, 1, 5⟩ zeroRand uuidA sqrtModel_spec
      zeroRand_stream01 (by norm_num) (by norm_num) (by norm_num)⟩

/-- C4: for every planet and exoplanet in a result of `GenerateAll`, the
stored `OrbitalPeriod` equals `365.25 * sqrt(SemiMajorAxis^3 / M)` where `M`
is the stored `Mass` of its parent star — a pure function of the stored
axis and parent-star mass computed with the same square root used
throughout, never an independent random draw. -/
theorem generateAll_kepler (sq : ℚ → ℚ) (cfg : Config) (r : Rand) (u : Uuid)
    (hsq : SqrtSpec sq) (hs : Stream01 r.stream)
    (hN : 0 ≤ cfg.NumStars) (hP : 0 ≤ cfg.PlanetsPerStar) (hE : 0 ≤ cfg.ExoPerStar) :
    ∃ d, GenerateAll sq cfg r u = some d ∧
      (∀ p ∈ d.Planets, ∃ st ∈ d.Stars, p.StarID = st.ID ∧
        p.OrbitalPeriod = 365.25 * sq (p.SemiMajorAxis ^ 3 / st.Mass)) ∧
      (∀ e ∈ d.Exoplanets, ∃ st ∈ d.Stars, e.StarID = st.ID ∧
        e.OrbitalPeriod = 365.25 * sq (e.SemiMajorAxis ^ 3 / st.Mass)) := by
  obtain ⟨d, h1, -, -, -, -, hp, he⟩ := GenerateAll_spec sq cfg r u hsq hs hN hP hE
  refine ⟨d, h1, ?_, ?_⟩
  · intro p hmem
    obtain ⟨st, hin, hID, -, -, hper, -⟩ := hp p hmem
    refine ⟨st, hin, hID, ?_⟩
    rw [hper]
    ring_nf
  · intro e hmem
    obtain ⟨st, hin, hID, -, -, hper, -⟩ := he e hmem
    refine ⟨st, hin, hID, ?_⟩
    rw [hper]
    ring_nf

theorem generateAll_kepler_witness :
    SqrtSpec sqrtModel ∧ Stream01 zeroRand.stream ∧
    ∃ d, GenerateAll sqrtModel ⟨1, 1, 1, 3⟩ zeroRand uuidA = some d ∧
      (∀ p ∈ d.Planets, ∃ st ∈ d.Stars, p.StarID = st.ID ∧
        p.OrbitalPeriod = 365.25 * sqrtModel (p.SemiMajorAxis ^ 3 / st.Mass)) ∧
      (∀ e ∈ d.Exoplanets, ∃ st ∈ d.Stars, e.StarID = st.ID ∧
        e.OrbitalPeriod = 365.25 * sqrtModel (e.SemiMajorAxis ^ 3 / st.Mass)) :=
  ⟨sqrtModel_spec, zeroRand_stream01,
    generateAll_kepler sqrtModel ⟨1, 1, 1, 3⟩ zeroRand uuidA sqrtModel_spec
      zeroRand_stream01 (by norm_num) (by norm_num) (by norm_num)⟩

/-- C5: for every pre-validated configuration and any seed, every generated
star has positive mass, radius and temperature, and every planet and
exoplanet has eccentricity in `[0,1)`, positive mass, radius, orbital
period and semi-major axis, discovery year in `[1990, 2024]`, and positive
surface temperature. -/
theorem generateAll_ranges (sq : ℚ → ℚ) (cfg : Config) (r : Rand) (u : Uuid)
    (hsq : SqrtSpec sq) (hs : Stream01 r.stream)
    (hN : 0 ≤ cfg.NumStars) (hP : 0 ≤ cfg.PlanetsPerStar) (hE : 0 ≤ cfg.ExoPerStar) :
    ∃ d, GenerateAll sq cfg r u = some d ∧
      (∀ st ∈ d.Stars, 0 < st.Mass ∧ 0 < st.Radius ∧ 0 < st.Temperature) ∧
      (∀ p ∈ d.Planets, 0 ≤ p.Eccentricity ∧ p.Eccentricity < 1 ∧ 0 < p.Mass ∧
        0 < p.Radius ∧ 0 < p.OrbitalPeriod ∧ 0 < p.SemiMajorAxis ∧
        1990 ≤ p.DiscoveryYear ∧ p.DiscoveryYear ≤ 2024 ∧ 0 < p.SurfaceTemp) ∧
      (∀ e ∈ d.Exoplanets, 0 ≤ e.Eccentricity ∧ e.Eccentricity < 1 ∧ 0 < e.Mass ∧
        0 < e.Radius ∧ 0 < e.OrbitalPeriod ∧ 0 < e.SemiMajorAxis ∧
        1990 ≤ e.DiscoveryYear ∧ e.DiscoveryYear ≤ 2024 ∧ 0 < e.SurfaceTemp) := by
  obtain ⟨d, h1, -, -, -, hst, hp, he⟩ := GenerateAll_spec sq cfg r u hsq hs hN hP hE
  refine ⟨d, h1, ?_, ?_, ?_⟩
  · intro st hmem
    obtain ⟨hm, hr, ht⟩ := hst st hmem
    exact ⟨hm, by linarith, by omega⟩
  · intro p hmem
    obtain ⟨st, -, -, haxlb, -, -, hperpos, hecc0, hecc1, hm, hrad, -, htpos, hy1, hy2⟩ :=
      hp p hmem
    exact ⟨hecc0, by linarith, hm, hrad, hperpos, by linarith, hy1, hy2, htpos⟩
  · intro e hmem
    obtain ⟨st, -, -, haxlb, -, -, hperpos, hecc0, hecc1, hmlb, -, hrlb, -, -, -, htpos, hy1, hy2⟩ :=
      he e hmem
    exact ⟨hecc0, by linarith, by linarith, by linarith, hperpos, by linarith, hy1, hy2, htpos⟩

theorem generateAll_ranges_witness :
    SqrtSpec sqrtModel ∧ Stream01 zeroRand.stream ∧
    ∃ d, GenerateAll sqrtModel ⟨2, 2, 2, 8⟩ zeroRand uuidA = some d ∧
      (∀ st ∈ d.Stars, 0 < st.Mass ∧ 0 < st.Radius ∧ 0 < st.Temperature) ∧
      (∀ p ∈ d.Planets, 0 ≤ p.Eccentricity ∧ p.Eccentricity < 1 ∧ 0 < p.Mass ∧
        0 < p.Radius ∧ 0 < p.OrbitalPeriod ∧ 0 < p.SemiMajorAxis ∧
        1990 ≤ p.DiscoveryYear ∧ p.DiscoveryYear ≤ 2024 ∧ 0 < p.SurfaceTemp) ∧
      (∀ e ∈ d.Exoplanets, 0 ≤ e.Eccentricity ∧ e.Eccentricity < 1 ∧ 0 < e.Mass ∧
        0 < e.Radius ∧ 0 < e.OrbitalPeriod ∧ 0 < e.SemiMajorAxis ∧
        1990 ≤ e.DiscoveryYear ∧ e.DiscoveryYear ≤ 2024 ∧ 0 < e.SurfaceTemp) :=
  ⟨sqrtModel_spec, zeroRand_stream01,
    generateAll_ranges sqrtModel ⟨2, 2, 2, 8⟩ zeroRand uuidA sqrtModel_spec
      zeroRand_stream01 (by norm_num) (by norm_num) (by norm_num)⟩

/-- C6: `generateSpectralType` draws a uniform value in `[0, sum-of-weights)`
over the weights `O=0.00003, B=0.13, A=2.0, F=3.0, G=7.6, K=12.1, M=76.45`
(the `weights` list, iterated in the fixed O→M order) and picks the class at
index `scanWeights val`, which is the first index whose cumulative weight
meets or exceeds the drawn value: `val ≤ cumWeight idx` while every earlier
cumulative weight is strictly below `val` — so a draw exactly equal to a
cumulative boundary resolves to the earlier class. -/
theorem generateSpectralType_weighted_first_match (r : Rand)
    (h0 : 0 ≤ r.stream r.idx) (h1 : r.stream r.idx < 1) :
    generateSpectralType r = some (spectralString r, ⟨r.stream, r.idx + 2⟩) ∧
    spectralString r = (classAt (scanWeights (r.stream r.idx * totalWeight))).cls
      ++ toString ⌊r.stream (r.idx + 1) * (10:ℚ)⌋ ++ "V" ∧
    0 ≤ r.stream r.idx * totalWeight ∧
    r.stream r.idx * totalWeight < totalWeight ∧
    scanWeights (r.stream r.idx * totalWeight) < 7 ∧
    r.stream r.idx * totalWeight ≤ cumWeight (scanWeights (r.stream r.idx * totalWeight)) ∧
    ∀ j < scanWeights (r.stream r.idx * totalWeight),
      cumWeight j < r.stream r.idx * totalWeight := by
  have hv0 : 0 ≤ r.stream r.idx * totalWeight := by
    rw [totalWeight_eq]
    nlinarith
  have hv1 : r.stream r.idx * totalWeight < totalWeight := by
    rw [totalWeight_eq] at *
    nlinarith
  obtain ⟨hlt, hle, hfirst⟩ := scanWeights_spec _ hv0 hv1
  exact ⟨generateSpectralType_eq r, rfl, hv0, hv1, hlt, hle, hfirst⟩

theorem generateSpectralType_weighted_first_match_witness :
    (0 ≤ zeroRand.stream zeroRand.idx ∧ zeroRand.stream zeroRand.idx < 1) ∧
    generateSpectralType zeroRand = some (spectralString zeroRand, ⟨zeroRand.stream, zeroRand.idx + 2⟩) :=
  ⟨⟨by norm_num [zeroRand], by norm_num [zeroRand]⟩,
    (generateSpectralType_weighted_first_match zeroRand (by norm_num [zeroRand])
      (by norm_num [zeroRand])).1⟩

/-- C7 (counterexample): in `generatePlanet`, a regime draw exactly equal to
`0.3` (stream `regimeRand`, whose second draw is `0.3`) does not select the
rocky regime: with the mass draw at `0.5`, the generated planet's mass is
`12.5` Earth masses, outside the rocky band `[0.1, 5.0]` — the draw lands in
the ice-giant band, contradicting the claim that a draw equal to `0.3`
selects rocky (bands are closed on the low end, not the high end). -/
theorem generatePlanet_regime_boundary_counterexample :
    regimeRand.stream (regimeRand.idx + 1) = 0.3 ∧
    Option.map (fun z => z.1.Mass) (generatePlanet sqrtModel probeStar 1 regimeRand uuidA) =
      some (25/2) ∧
    ¬ (25/2 : ℚ) ≤ 5 := by
  refine ⟨by norm_num [regimeRand], ?_, by norm_num⟩
  rw [generatePlanet_eq]
  norm_num [planetMass, planetBands, regimeRand]

/-- C7 (amended): in `generatePlanet` a single uniform draw in `[0,1)`
selects exactly one of three mutually exclusive regimes — rocky (mass in
`[0.1, 5.0)` Earth masses, radius in `[0.3, 2.0)` Earth radii), ice giant
(mass `[5.0, 20.0)`, radius `[2.0, 4.0)`), gas giant (mass `[20.0, 1000.0)`,
radius `[4.0, 15.0)`) — partitioned at the cut points `0.3` and `0.6` with
bands closed on the low end and open on the high end, so a draw exactly
equal to `0.3` selects ice giant and a draw exactly equal to `0.6` selects
gas giant. -/
theorem generatePlanet_regime_bands (sq : ℚ → ℚ) (star : Star) (j : ℕ) (r : Rand)
    (u : Uuid) (hs : Stream01 r.stream) :
    ∃ p r' u', generatePlanet sq star j r u = some (p, r', u') ∧
      (r.stream (r.idx + 1) < 0.3 →
        0.1 ≤ p.Mass ∧ p.Mass < 5 ∧ 0.3 ≤ p.Radius ∧ p.Radius < 2) ∧
      (0.3 ≤ r.stream (r.idx + 1) → r.stream (r.idx + 1) < 0.6 →
        5 ≤ p.Mass ∧ p.Mass < 20 ∧ 2 ≤ p.Radius ∧ p.Radius < 4) ∧
      (0.6 ≤ r.stream (r.idx + 1) →
        20 ≤ p.Mass ∧ p.Mass < 1000 ∧ 4 ≤ p.Radius ∧ p.Radius < 15) := by
  have h2 := hs (r.idx + 2)
  have h3 := hs (r.idx + 3)
  refine ⟨_, _, _, generatePlanet_eq sq star j r u, ?_, ?_, ?_⟩
  · intro hb
    have hm : planetMass r = 0.1 + r.stream (r.idx + 2) * (5.0 - 0.1) := by
      rw [planetMass, planetBands, if_pos hb]
    have hr : planetRadius r = 0.3 + r.stream (r.idx + 3) * (2.0 - 0.3) := by
      rw [planetRadius, planetBands, if_pos hb]
    refine ⟨?_, ?_, ?_, ?_⟩ <;> simp only [hm, hr] <;> nlinarith [h2.1, h2.2, h3.1, h3.2]
  · intro hb1 hb2
    have hm : planetMass r = 5.0 + r.stream (r.idx + 2) * (20.0 - 5.0) := by
      rw [planetMass, planetBands, if_neg (not_lt.mpr hb1), if_pos hb2]
    have hr : planetRadius r = 2.0 + r.stream (r.idx + 3) * (4.0 - 2.0) := by
      rw [planetRadius, planetBands, if_neg (not_lt.mpr hb1), if_pos hb2]
    refine ⟨?_, ?_, ?_, ?_⟩ <;> simp only [hm, hr] <;> nlinarith [h2.1, h2.2, h3.1, h3.2]
  · intro hb
    have hb1 : ¬ r.stream (r.idx + 1) < 0.3 := by
      intro hc
      norm_num at hb hc
      linarith
    have hb2 : ¬ r.stream (r.idx + 1) < 0.6 := not_lt.mpr hb
    have hm : planetMass r = 20.0 + r.stream (r.idx + 2) * (1000.0 - 20.0) := by
      rw [planetMass, planetBands, if_neg hb1, if_neg hb2]
    have hr : planetRadius r = 4.0 + r.stream (r.idx + 3) * (15.0 - 4.0) := by
      rw [planetRadius, planetBands, if_neg hb1, if_neg hb2]
    refine ⟨?_, ?_, ?_, ?_⟩ <;> simp only [hm, hr] <;> nlinarith [h2.1, h2.2, h3.1, h3.2]

theorem generatePlanet_regime_bands_witness :
    Stream01 zeroRand.stream ∧
    ∃ p r' u', generatePlanet sqrtModel probeStar 1 zeroRand uuidA = some (p, r', u') ∧
      (zeroRand.stream (zeroRand.idx + 1) < 0.3 →
        0.1 ≤ p.Mass ∧ p.Mass < 5 ∧ 0.3 ≤ p.Radius ∧ p.Radius < 2) ∧
      (0.3 ≤ zeroRand.stream (zeroRand.idx + 1) → zeroRand.stream (zeroRand.idx + 1) < 0.6 →
        5 ≤ p.Mass ∧ p.Mass < 20 ∧ 2 ≤ p.Radius ∧ p.Radius < 4) ∧
      (0.6 ≤ zeroRand.stream (zeroRand.idx + 1) →
        20 ≤ p.Mass ∧ p.Mass < 1000 ∧ 4 ≤ p.Radius ∧ p.Radius < 15) :=
  ⟨zeroRand_stream01,
    generatePlanet_regime_bands sqrtModel probeStar 1 zeroRand uuidA zeroRand_stream01⟩

/-- C8: for every planet and exoplanet in a result of `GenerateAll`, the
stored `SurfaceTemp` equals the integer floor of `T * sqrt(R / (2 * a))`
where `T` and `R` are the parent star's stored `Temperature` and `Radius`
and `a` is the body's own stored `SemiMajorAxis` — a pure function of those
three stored fields, never an independent random draw. -/
theorem generateAll_surface_temp (sq : ℚ → ℚ) (cfg : Config) (r : Rand) (u : Uuid)
    (hsq : SqrtSpec sq) (hs : Stream01 r.stream)
    (hN : 0 ≤ cfg.NumStars) (hP : 0 ≤ cfg.PlanetsPerStar) (hE : 0 ≤ cfg.ExoPerStar) :
    ∃ d, GenerateAll sq cfg r u = some d ∧
      (∀ p ∈ d.Planets, ∃ st ∈ d.Stars, p.StarID = st.ID ∧
        p.SurfaceTemp = ⌊(st.Temperature : ℚ) * sq (st.Radius / (2 * p.SemiMajorAxis))⌋) ∧
      (∀ e ∈ d.Exoplanets, ∃ st ∈ d.Stars, e.StarID = st.ID ∧
        e.SurfaceTemp = ⌊(st.Temperature : ℚ) * sq (st.Radius / (2 * e.SemiMajorAxis))⌋) := by
  obtain ⟨d, h1, -, -, -, -, hp, he⟩ := GenerateAll_spec sq cfg r u hsq hs hN hP hE
  refine ⟨d, h1, ?_, ?_⟩
  · intro p hmem
    obtain ⟨st, hin, hID, -, -, -, -, -, -, -, -, hteq, -⟩ := hp p hmem
    exact ⟨st, hin, hID, hteq⟩
  · intro e hmem
    obtain ⟨st, hin, hID, -, -, -, -, -, -, -, -, -, -, -, hteq, -⟩ := he e hmem
    exact ⟨st, hin, hID, hteq⟩

theorem generateAll_surface_temp_witness :
    SqrtSpec sqrtModel ∧ Stream01 zeroRand.stream ∧
    ∃ d, GenerateAll sqrtModel ⟨1, 2, 2, 6⟩ zeroRand uuidA = some d ∧
      (∀ p ∈ d.Planets, ∃ st ∈ d.Stars, p.StarID = st.ID ∧
        p.SurfaceTemp = ⌊(st.Temperature : ℚ) * sqrtModel (st.Radius / (2 * p.SemiMajorAxis))⌋) ∧
      (∀ e ∈ d.Exoplanets, ∃ st ∈ d.Stars, e.StarID = st.ID ∧
        e.SurfaceTemp = ⌊(st.Temperature : ℚ) * sqrtModel (st.Radius / (2 * e.SemiMajorAxis))⌋) :=
  ⟨sqrtModel_spec, zeroRand_stream01,
    generateAll_surface_temp sqrtModel ⟨1, 2, 2, 6⟩ zeroRand uuidA sqrtModel_spec
      zeroRand_stream01 (by norm_num) (by norm_num) (by norm_num)⟩

/-- C9: for the configuration `NumStars = 10`, `PlanetsPerStar = 5`,
`ExoPerStar = 3`, seed `12345` (any well-formed stream derived from that
seed), `GenerateAll` returns exactly 10 stars, at most 50 planets and at
most 30 exoplanets, and a second call with the same configuration and seed
(the same stream, any state of the global UUID source) yields a first star
identical to the first run's first star in name, mass and spectral type. -/
theorem generateAll_scenario_10_5_3 (sq : ℚ → ℚ) (r : Rand) (u1 u2 : Uuid)
    (hsq : SqrtSpec sq) (hs : Stream01 r.stream) :
    ∃ d1 d2, GenerateAll sq ⟨10, 5, 3, 12345⟩ r u1 = some d1 ∧
      GenerateAll sq ⟨10, 5, 3, 12345⟩ r u2 = some d2 ∧
      d1.Stars.length = 10 ∧ d1.Planets.length ≤ 50 ∧ d1.Exoplanets.length ≤ 30 ∧
      ∃ s1 s2, d1.Stars.head? = some s1 ∧ d2.Stars.head? = some s2 ∧
        s1.Name = s2.Name ∧ s1.Mass = s2.Mass ∧ s1.SpectralType = s2.SpectralType := by
  obtain ⟨d1, h1, hc1, hc2, hc3, -, -, -⟩ :=
    GenerateAll_spec sq ⟨10, 5, 3, 12345⟩ r u1 hsq hs (by norm_num) (by norm_num) (by norm_num)
  obtain ⟨d2, h2, -, -, -, -, -, -⟩ :=
    GenerateAll_spec sq ⟨10, 5, 3, 12345⟩ r u2 hsq hs (by norm_num) (by norm_num) (by norm_num)
  have her := GenerateAll_erase sq ⟨10, 5, 3, 12345⟩ r u1 u2
  rw [h1, h2] at her
  have herd : eraseData d1 = eraseData d2 := by
    simp at her
    exact her
  have hmapS : List.map eraseStar d1.Stars = List.map eraseStar d2.Stars :=
    congrArg GeneratedData.Stars herd
  have hlen1 : d1.Stars.length = 10 := by
    norm_num at hc1
    exact_mod_cast hc1
  have hp50 : d1.Planets.length ≤ 50 := by
    norm_num at hc2
    exact_mod_cast hc2
  have he30 : d1.Exoplanets.length ≤ 30 := by
    norm_num at hc3
    exact_mod_cast hc3
  cases hd1 : d1.Stars with
  | nil =>
    rw [hd1] at hlen1
    simp at hlen1
  | cons s1 t1 =>
    have hm2 : List.map eraseStar d2.Stars = eraseStar s1 :: List.map eraseStar t1 := by
      rw [← hmapS, hd1]
      simp
    cases hd2 : d2.Stars with
    | nil =>
      rw [hd2] at hm2
      simp at hm2
    | cons s2 t2 =>
      rw [hd2] at hm2
      simp only [List.map_cons, List.cons.injEq] at hm2
      obtain ⟨hes, -⟩ := hm2
      obtain ⟨hN, hSp, hM, -, -⟩ := eraseStar_fields s1 s2 hes.symm
      refine ⟨d1, d2, h1, h2, hlen1, hp50, he30, s1, s2, ?_, ?_, hN, hM, hSp⟩
      · rw [hd1]
        rfl
      · rw [hd2]
        rfl

theorem generateAll_scenario_10_5_3_witness :
    SqrtSpec sqrtModel ∧ Stream01 zeroRand.stream ∧
    ∃ d1 d2, GenerateAll sqrtModel ⟨10, 5, 3, 12345⟩ zeroRand uuidA = some d1 ∧
      GenerateAll sqrtModel ⟨10, 5, 3, 12345⟩ zeroRand uuidB = some d2 ∧
      d1.Stars.length = 10 ∧ d1.Planets.length ≤ 50 ∧ d1.Exoplanets.length ≤ 30 ∧
      ∃ s1 s2, d1.Stars.head? = some s1 ∧ d2.Stars.head? = some s2 ∧
        s1.Name = s2.Name ∧ s1.Mass = s2.Mass ∧ s1.SpectralType = s2.SpectralType :=
  ⟨sqrtModel_spec, zeroRand_stream01,
    generateAll_scenario_10_5_3 sqrtModel zeroRand uuidA uuidB sqrtModel_spec zeroRand_stream01⟩

/-- C10 (counterexample): for `NumStars = -1` (with arbitrary
`PlanetsPerStar`, `ExoPerStar` and seed), `GenerateAll` does not succeed
with an empty result: the slice pre-allocation
`make([]models.Star, 0, cfg.NumStars)` panics on the negative capacity, so
the call fails before the per-star loop is reached. -/
theorem generateAll_negative_numstars_counterexample :
    GenerateAll sqrtModel ⟨-1, 5, 5, 7⟩ zeroRand uuidA = none ∧
    GenerateAll sqrtModel ⟨-1, 5, 5, 7⟩ zeroRand uuidA ≠ some ⟨[], [], []⟩ := by
  have h : GenerateAll sqrtModel ⟨-1, 5, 5, 7⟩ zeroRand uuidA = none := by
    norm_num [GenerateAll]
  refine ⟨h, ?_⟩
  rw [h]
  exact fun hc => Option.noConfusion hc

/-- C10 (amended): for `NumStars = 0` — with every seed and arbitrary, even
negative, `PlanetsPerStar` and `ExoPerStar` — `GenerateAll` succeeds and
returns a result whose `Stars`, `Planets` and `Exoplanets` sequences are all
empty, because the per-star loop body (and hence every count draw) is never
entered; for `NumStars < 0`, however, the slice pre-allocation
`make([]models.Star, 0, cfg.NumStars)` panics on the negative capacity
before the loop, so `GenerateAll` fails instead of returning empty data. -/
theorem generateAll_zero_or_negative_numstars (sq : ℚ → ℚ) (cfg : Config) (r : Rand)
    (u : Uuid) :
    (cfg.NumStars = 0 → GenerateAll sq cfg r u = some ⟨[], [], []⟩) ∧
    (cfg.NumStars < 0 → GenerateAll sq cfg r u = none) := by
  constructor
  · intro h
    rw [GenerateAll, if_neg (by omega), h]
    rfl
  · intro h
    rw [GenerateAll, if_pos h]

theorem generateAll_zero_or_negative_numstars_witness :
    ((⟨0, -5, -5, 9⟩ : Config).NumStars = 0 ∧
      GenerateAll sqrtModel ⟨0, -5, -5, 9⟩ zeroRand uuidA = some ⟨[], [], []⟩) ∧
    ((⟨-2, 3, 3, 9⟩ : Config).NumStars < 0 ∧
      GenerateAll sqrtModel ⟨-2, 3, 3, 9⟩ zeroRand uuidA = none) :=
  ⟨⟨rfl, (generateAll_zero_or_negative_numstars sqrtModel ⟨0, -5, -5, 9⟩ zeroRand uuidA).1 rfl⟩,
   ⟨by norm_num,
    (generateAll_zero_or_negative_numstars sqrtModel ⟨-2, 3, 3, 9⟩ zeroRand uuidA).2 (by norm_num)⟩⟩

end StellarGen
